import Mathlib

/-!
Verification of the client-side reply engine of the Squid HTTP cache
(`src/client_side_reply.cc`), via a shallow embedding in Lean 4.

Each C++ routine relevant to the properties under examination is translated
into an executable Lean function over an explicit state record.  Ambient
predicates computed by external collaborators (the Store, refresh rules,
ACLs, the forwarding subsystem) appear as boolean/numeric fields of the
state: the embedded functions reproduce exactly the control flow of the
C++ code over those inputs.
-/

namespace ClientSideReply

/-- Squid logging tags (`LogTags_ot`) used by the reply engine paths
modelled here. -/
inductive LogTag where
  | TCP_HIT
  | TCP_MISS
  | TCP_REDIRECT
  | TCP_CLIENT_REFRESH_MISS
  | TCP_REFRESH_UNMODIFIED
  | TCP_REFRESH_MODIFIED
  | TCP_REFRESH_FAIL_OLD
  | TCP_REFRESH_FAIL_ERR
  | TCP_REFRESH
  | TCP_INM_HIT
  | TCP_IMS_HIT
  | TCP_NEGATIVE_HIT
  | TCP_MEM_HIT
  | TCP_OFFLINE_HIT
  | TCP_DENIED
  | TCP_DENIED_REPLY
  | TCP_SWAPFAIL_MISS
  deriving DecidableEq

/-- The collapsed-revalidation role of a reply context
(`clientReplyContext::CollapsedRevalidation`). -/
inductive CollapsedRevalidation where
  | crNone
  | crInitiator
  | crSlave
  deriving DecidableEq

/-! ## saveState / restoreState (claim C10)

`clientReplyContext::saveState` and `restoreState` shuffle the context's
current store attachment into the shadow (`old_*`) fields and back.  The
observable fields below are exactly those the two routines touch; pointers
(store entry, store client) are modelled as `Option Nat` identities, the
request ETag as a `String` (`old_etag.clean()` yields the empty string).
The C++ `assert(old_sc == nullptr)` / `assert(old_sc != nullptr)`
preconditions appear as theorem hypotheses. -/

/-- The slice of `clientReplyContext` state touched by `saveState` /
`restoreState`: the attached entry, the store-client subscription, the read
offsets, the request's conditional fields, and the shadow copies. -/
structure CtxState where
  entry : Option Nat
  sc : Option Nat
  reqofs : Nat
  reqsize : Nat
  reqLastmod : Int
  reqEtag : String
  old_entry : Option Nat
  old_sc : Option Nat
  old_lastmod : Int
  old_etag : String
  old_reqofs : Nat
  old_reqsize : Nat
  deriving DecidableEq

/-- Source `clientReplyContext::saveState`: snapshot the current entry,
subscription, offsets, and the request's last-modified/ETag into the
`old_*` shadow, then null out the current fields. -/
def saveState (c : CtxState) : CtxState :=
  { c with
    old_entry := c.entry
    old_sc := c.sc
    old_lastmod := c.reqLastmod
    old_etag := c.reqEtag
    old_reqsize := c.reqsize
    old_reqofs := c.reqofs
    entry := none
    sc := none
    reqsize := 0
    reqofs := 0 }

/-- Source `clientReplyContext::removeClientStoreReference` applied to the current
`(sc, http->storeEntry())` pair: when an entry is attached, unregister the
store client and drop both references (`removeStoreReference`); when no
entry is attached it is a no-op (the store client pointer is not cleared). -/
def removeClientStoreReference (c : CtxState) : CtxState :=
  match c.entry with
  | some _ => { c with entry := none, sc := none }
  | none => c

/-- Source `clientReplyContext::restoreState`: drop any current store reference,
move the shadow fields back into the current fields, and reset every
shadow field to its cleared initial state (`old_lastmod = -1`,
`old_etag.clean()`, zero offsets). -/
def restoreState (c : CtxState) : CtxState :=
  let c := removeClientStoreReference c
  { c with
    entry := c.old_entry
    sc := c.old_sc
    reqsize := c.old_reqsize
    reqofs := c.old_reqofs
    reqLastmod := c.old_lastmod
    reqEtag := c.old_etag
    old_entry := none
    old_sc := none
    old_lastmod := -1
    old_etag := ""
    old_reqsize := 0
    old_reqofs := 0 }

/-! ## processConditional (claim C2)

`clientReplyContext::processConditional` evaluates the client's conditional
headers against a located cache hit.  External predicates of the store
entry — `hasIfMatchEtag`, `hasIfNoneMatchEtag`, `modifiedSince` — are
boolean inputs. -/

/-- Inputs of `clientReplyContext::processConditional`: the stored reply's
status, the presence/evaluation of the request's conditional headers, and
the request's If-Modified-Since fields. -/
structure CondState where
  /-- Source `e->mem().baseReply().sline.status()` -/
  storedStatus : Nat
  /-- Source `r.header.has(Http::HdrType::IF_MATCH)` -/
  hasIfMatch : Bool
  /-- Source `e->hasIfMatchEtag(r)` -/
  ifMatchEtagMatches : Bool
  /-- Source `r.header.has(Http::HdrType::IF_NONE_MATCH)` -/
  hasIfNoneMatch : Bool
  /-- Source `e->hasIfNoneMatchEtag(r)` -/
  ifNoneMatchEtagMatches : Bool
  /-- Source `r.flags.ims` -/
  imsFlag : Bool
  /-- Source `r.ims` -/
  ims : Int
  /-- Source `r.imslen` -/
  imslen : Int
  /-- Source `r.header.has(Http::HdrType::IF_MODIFIED_SINCE)` -/
  hasImsHeader : Bool
  /-- Source `e->modifiedSince(r.ims, r.imslen)` -/
  modifiedSince : Bool
  /-- request method is GET or HEAD
  (`sendNotModifiedOrPreconditionFailedError` dispatch) -/
  methodGetOrHead : Bool
  deriving DecidableEq

/-- What `processConditional` ends up doing with the request. -/
inductive CondAction where
  /-- Source `processMiss()` after tagging `LOG_TCP_MISS` (status ≠ 200) -/
  | fallThroughMiss
  /-- Source `sendPreconditionFailedError()` (412) -/
  | precondFailed
  /-- Source `sendNotModified()` (304) -/
  | notModified
  /-- return `false`: caller continues with the unconditional hit -/
  | unconditionalHit
  deriving DecidableEq

/-- Result of `processConditional`: the chosen action, the C++ return value
(`true` = request fully handled), and the request's If-Modified-Since
fields after the call (If-None-Match processing silently drops them). -/
structure CondResult where
  action : CondAction
  handled : Bool
  imsFlagAfter : Bool
  imsAfter : Int
  imslenAfter : Int
  hasImsHeaderAfter : Bool
  deriving DecidableEq

/-- Source `clientReplyContext::processConditional`, translated clause by clause
from the C++ source. -/
def processConditional (s : CondState) : CondResult :=
  if s.storedStatus ≠ 200 then
    { action := .fallThroughMiss, handled := true
      imsFlagAfter := s.imsFlag, imsAfter := s.ims
      imslenAfter := s.imslen, hasImsHeaderAfter := s.hasImsHeader }
  else if s.hasIfMatch ∧ ¬s.ifMatchEtagMatches then
    { action := .precondFailed, handled := true
      imsFlagAfter := s.imsFlag, imsAfter := s.ims
      imslenAfter := s.imslen, hasImsHeaderAfter := s.hasImsHeader }
  else if s.hasIfNoneMatch then
    -- RFC 7232: If-None-Match recipient MUST ignore IMS
    if s.ifNoneMatchEtagMatches then
      { action := if s.methodGetOrHead then .notModified else .precondFailed
        handled := true
        imsFlagAfter := false, imsAfter := -1
        imslenAfter := 0, hasImsHeaderAfter := false }
    else
      { action := .unconditionalHit, handled := false
        imsFlagAfter := false, imsAfter := -1
        imslenAfter := 0, hasImsHeaderAfter := false }
  else if s.imsFlag then
    if s.modifiedSince then
      { action := .unconditionalHit, handled := false
        imsFlagAfter := s.imsFlag, imsAfter := s.ims
        imslenAfter := s.imslen, hasImsHeaderAfter := s.hasImsHeader }
    else
      { action := .notModified, handled := true
        imsFlagAfter := s.imsFlag, imsAfter := s.ims
        imslenAfter := s.imslen, hasImsHeaderAfter := s.hasImsHeader }
  else
    { action := .unconditionalHit, handled := false
      imsFlagAfter := s.imsFlag, imsAfter := s.ims
      imslenAfter := s.imslen, hasImsHeaderAfter := s.hasImsHeader }

/-! ## identifyStoreObject / identifyFoundObject (claim C3)

Lookup and classification of the request against the store. -/

/-- Inputs of `identifyStoreObject` / `identifyFoundObject`: request flags,
configuration, and the properties of the store entry (if any) that a public
lookup would return. -/
structure LookupState where
  /-- Source `r->flags.noCache` -/
  noCache : Bool
  /-- Source `r->flags.internal` -/
  internalFlag : Bool
  /-- Source `r->flags.noCacheHack()` -/
  noCacheHack : Bool
  /-- Source `storeGetPublicByRequest(r)` finds an entry -/
  entryFound : Bool
  /-- Source `Config.onoff.offline` -/
  offline : Bool
  /-- Source `http->redirect.status` is set -/
  redirectStatus : Bool
  /-- Source `e->validToSend()` -/
  validToSend : Bool
  /-- Source `EBIT_TEST(e->flags, ENTRY_SPECIAL)` -/
  special : Bool
  /-- Source `e->hittingRequiresCollapsing()` -/
  hittingRequiresCollapsing : Bool
  /-- Source `startCollapsingOn(*e, false)` -/
  startCollapsingOk : Bool
  deriving DecidableEq

/-- The first-lookup detail string recorded by `detailStoreLookup`. -/
inductive LookupDetail where
  /-- the literal `"no-cache"` recorded when the store lookup is skipped -/
  | noCacheSkip
  /-- Source `storeLookupString(found)`: the hit/miss string of a store lookup -/
  | storeLookup (found : Bool)
  deriving DecidableEq

/-- Result of lookup and classification: whether the store was queried,
the recorded first-lookup detail, the classification tag, and whether the
found entry was forgotten (`forgetHit`). -/
structure LookupResult where
  storeQueried : Bool
  detail : LookupDetail
  tag : LogTag
  forgot : Bool
  /-- Source `ipcacheInvalidateNegative(r->url.host())` was called -/
  invalidatedNegativeIpCache : Bool
  deriving DecidableEq

/-- Source `clientReplyContext::identifyFoundObject`, classifying an optional
entry found by the store lookup.  `queried` and `detail` are threaded from
`identifyStoreObject` for reporting. -/
def identifyFoundObject (s : LookupState) (queried : Bool)
    (detail : LookupDetail) (entry : Bool) : LookupResult :=
  let ipInv := s.noCache ∨ s.noCacheHack
  if ¬entry then
    { storeQueried := queried, detail := detail, tag := .TCP_MISS
      forgot := false, invalidatedNegativeIpCache := ipInv }
  else if s.offline then
    { storeQueried := queried, detail := detail, tag := .TCP_HIT
      forgot := false, invalidatedNegativeIpCache := ipInv }
  else if s.redirectStatus then
    { storeQueried := queried, detail := detail, tag := .TCP_REDIRECT
      forgot := true, invalidatedNegativeIpCache := ipInv }
  else if ¬s.validToSend then
    { storeQueried := queried, detail := detail, tag := .TCP_MISS
      forgot := true, invalidatedNegativeIpCache := ipInv }
  else if s.special then
    { storeQueried := queried, detail := detail, tag := .TCP_HIT
      forgot := false, invalidatedNegativeIpCache := ipInv }
  else if s.noCache then
    { storeQueried := queried, detail := detail
      tag := .TCP_CLIENT_REFRESH_MISS
      forgot := true, invalidatedNegativeIpCache := ipInv }
  else if s.hittingRequiresCollapsing ∧ ¬s.startCollapsingOk then
    { storeQueried := queried, detail := detail, tag := .TCP_MISS
      forgot := true, invalidatedNegativeIpCache := ipInv }
  else
    { storeQueried := queried, detail := detail, tag := .TCP_HIT
      forgot := false, invalidatedNegativeIpCache := ipInv }

/-- Source `clientReplyContext::identifyStoreObject`: external `no-cache` requests
skip the store lookup and record the `"no-cache"` detail; all others query
the store by public key and record the hit/miss lookup string. -/
def identifyStoreObject (s : LookupState) : LookupResult :=
  if ¬s.noCache ∨ s.internalFlag then
    identifyFoundObject s true (.storeLookup s.entryFound) s.entryFound
  else
    identifyFoundObject s false .noCacheSkip false

/-! ## processMiss (used by claims C7 and C1's fallback analysis)

`clientReplyContext::processMiss` launches an origin fetch unless a
special-cased engine reply applies. -/

/-- Inputs of `processMiss`: the method, request flags, and redirect
pre-decision that select among the miss sub-paths. -/
structure MissState where
  /-- a leftover entry is attached and carries `ENTRY_SPECIAL` -/
  leftoverSpecial : Bool
  /-- Source `r->method == Http::METHOD_PURGE` -/
  methodPurge : Bool
  /-- Source `r->method == Http::METHOD_OTHER` -/
  methodOther : Bool
  /-- Source `http->onlyIfCached()` -/
  onlyIfCached : Bool
  /-- Source `r->flags.loopDetected` -/
  loopDetected : Bool
  /-- Source `http->redirect.status` is set -/
  redirectStatus : Bool
  deriving DecidableEq

/-- The sub-path `processMiss` takes. -/
inductive MissAction where
  /-- dispatch to `purgeRequest()` -/
  | purgePath
  /-- Source `processOnlyIfCachedMiss()`: synthesize 504 -/
  | onlyIfCached504
  /-- loop detected: synthesize 403 into a private entry -/
  | loopDenied403
  /-- pre-decided redirect: synthesize a 3xx reply -/
  | redirectReply
  /-- Source `FwdState::Start(...)`: fetch the object from the network -/
  | startForwarding
  deriving DecidableEq

/-- Result of `processMiss`: the chosen sub-path, whether the unsafe-method
fanout purge ran, and whether an origin fetch was initiated. -/
structure MissResult where
  action : MissAction
  purgedAllCached : Bool
  fwdStarted : Bool
  deriving DecidableEq

/-- Source `clientReplyContext::processMiss`, translated from the C++ source.
Only the final `else` branch (no purge, no `only-if-cached`, no loop, no
pre-decided redirect) reaches `FwdState::Start`. -/
def processMiss (m : MissState) : MissResult :=
  if m.methodPurge then
    { action := .purgePath, purgedAllCached := false, fwdStarted := false }
  else
    let purgedAll := m.methodOther
    if m.onlyIfCached then
      { action := .onlyIfCached504, purgedAllCached := purgedAll
        fwdStarted := false }
    else if m.loopDetected then
      { action := .loopDenied403, purgedAllCached := purgedAll
        fwdStarted := false }
    else if m.redirectStatus then
      { action := .redirectReply, purgedAllCached := purgedAll
        fwdStarted := false }
    else
      { action := .startForwarding, purgedAllCached := purgedAll
        fwdStarted := true }

/-! ## processExpired (claims C7, C1 context)

`clientReplyContext::processExpired` sets up the revalidation fetch,
choosing the collapsed-revalidation role and starting forwarding for every
role except `crSlave`. -/

/-- Inputs of `processExpired`: configuration and the collapsing-related
store predicates. -/
structure ExpiredState where
  /-- Source `http->onlyIfCached()` -/
  onlyIfCached : Bool
  /-- Source `Config.onoff.collapsed_forwarding` -/
  collapsedForwardingCfg : Bool
  /-- Source `Store::Controller::SmpAware()` -/
  smpAware : Bool
  /-- Source `http->request->vary_headers.isEmpty()` -/
  varyHeadersEmpty : Bool
  /-- Source `storeGetPublicByRequest(request, ksRevalidation)` finds an entry -/
  revalEntryExists : Bool
  /-- the found revalidation entry's `hittingRequiresCollapsing()` -/
  revalEntryRequiresCollapsing : Bool
  /-- Source `startCollapsingOn(*e, true)` -/
  startCollapsingOk : Bool
  /-- Source `mayInitiateCollapsing()` -/
  mayInitiateCollapsing : Bool
  /-- Source `Store::Root().allowCollapsing(entry, flags, method)` -/
  allowCollapsing : Bool
  deriving DecidableEq

/-- Result of `processExpired`: whether the `only-if-cached` 504 shortcut
fired, the collapsed-revalidation role chosen, whether the found
revalidation entry was abandoned, and whether `FwdState::Start` ran. -/
structure ExpiredResult where
  onlyIfCached504 : Bool
  role : CollapsedRevalidation
  abandonedFoundEntry : Bool
  fwdStarted : Bool
  deriving DecidableEq

/-- Source `clientReplyContext::processExpired`, translated from the C++ source.
A slave joins an in-flight initiator's entry and does not start
forwarding; every other role creates a fresh entry and calls
`FwdState::Start`. -/
def processExpired (s : ExpiredState) : ExpiredResult :=
  if s.onlyIfCached then
    { onlyIfCached504 := true, role := .crNone
      abandonedFoundEntry := false, fwdStarted := false }
  else
    let collapsingAllowed := s.collapsedForwardingCfg ∧ ¬s.smpAware ∧
      s.varyHeadersEmpty
    let joinAsSlave := collapsingAllowed ∧ s.revalEntryExists ∧
      s.revalEntryRequiresCollapsing ∧ s.startCollapsingOk
    let abandoned := collapsingAllowed ∧ s.revalEntryExists ∧ ¬joinAsSlave
    -- when the found entry is abandoned, collapsing is disabled for this
    -- request before the initiator registration is attempted
    let collapsingStillAllowed := collapsingAllowed ∧ ¬abandoned
    let role : CollapsedRevalidation :=
      if joinAsSlave then .crSlave
      else if collapsingStillAllowed ∧ s.mayInitiateCollapsing ∧
          s.allowCollapsing then .crInitiator
      else .crNone
    { onlyIfCached504 := false, role := role
      abandonedFoundEntry := abandoned
      fwdStarted := role ≠ .crSlave }

/-! ## handleIMSReply (claims C1, C7, C8)

`clientReplyContext::handleIMSReply` processes the upstream revalidation
response and decides between forwarding the new reply and re-serving the
old entry. -/

/-- Inputs of `handleIMSReply`: context flags, the store-copy result
flags, the new reply's status, and the comparisons against the old
entry. -/
structure IMSState where
  /-- the context's `deleting` flag -/
  deleting : Bool
  /-- Source `http->storeEntry() != nullptr` -/
  hasStoreEntry : Bool
  /-- Source `result.flags.error` -/
  resultError : Bool
  /-- Source `EBIT_TEST(http->storeEntry()->flags, ENTRY_ABORTED)` -/
  entryAborted : Bool
  /-- the context's `collapsedRevalidation` role -/
  collapsedRevalidation : CollapsedRevalidation
  /-- Source `http->storeEntry()->mayStartHitting()` -/
  mayStartHitting : Bool
  /-- the new reply's status code (`new_rep.sline.status()`);
  `Http::scNone = 0`, `Http::scNotModified = 304`,
  `Http::scInternalServerError = 500` -/
  newStatus : Nat
  /-- Source `http->request->flags.ims`: the client itself sent
  If-Modified-Since -/
  clientImsFlag : Bool
  /-- Source `old_entry->modifiedSince(http->request->ims, http->request->imslen)` -/
  oldModifiedSinceClientIms : Bool
  /-- Source `new_rep.olderThan(&old_entry->mem().freshestReply())`: the new
  reply's Date header is older than the stored reply's -/
  newOlderThanOld : Bool
  /-- Source `http->request->flags.failOnValidationError` -/
  failOnValidationError : Bool
  /-- Source `http->request->flags.staleIfHit` before the call -/
  staleIfHit : Bool
  /-- Source `reqsize` before the call -/
  reqsize : Nat
  /-- Source `result.length + reqofs`, the updated request size -/
  newReqsize : Nat
  /-- context for a potential `processMiss` fallback -/
  miss : MissState
  deriving DecidableEq

/-- What `handleIMSReply` ends up doing. -/
inductive IMSAction where
  /-- Source `deleting` short-circuit: return with no processing -/
  | ignoredDeleting
  /-- Source `http->storeEntry() == nullptr`: return -/
  | ignoredNoEntry
  /-- store error on a non-aborted entry: ignore and wait -/
  | ignoredStoreError
  /-- collapsed slave hit a private non-shareable entry: restore the old
  context and run `processMiss` -/
  | slaveFallbackMiss (miss : MissResult)
  /-- Source `sendClientOldEntry()`: restore and serve the old entry -/
  | sendOldEntry
  /-- Source `sendClientUpstreamResponse()`: forward the new upstream response -/
  | sendUpstream
  deriving DecidableEq

/-- Result of `handleIMSReply`: the chosen action, the logging tag set by
this routine (if any), whether `Store::updateOnNotModified` was invoked,
the request's `staleIfHit` flag after the call, whether the access-log
`ignored` marker was set, the updated `reqsize`, and whether an origin
fetch was initiated from within this call. -/
structure IMSResult where
  action : IMSAction
  tag : Option LogTag
  updateOnNotModifiedCalled : Bool
  staleIfHitAfter : Bool
  ignoredMarkerSet : Bool
  reqsizeAfter : Nat
  fwdStarted : Bool
  deriving DecidableEq

/-- Source `clientReplyContext::handleIMSReply`, translated clause by clause from
the C++ source. -/
def handleIMSReply (s : IMSState) : IMSResult :=
  if s.deleting then
    { action := .ignoredDeleting, tag := none
      updateOnNotModifiedCalled := false, staleIfHitAfter := s.staleIfHit
      ignoredMarkerSet := false, reqsizeAfter := s.reqsize
      fwdStarted := false }
  else if ¬s.hasStoreEntry then
    { action := .ignoredNoEntry, tag := none
      updateOnNotModifiedCalled := false, staleIfHitAfter := s.staleIfHit
      ignoredMarkerSet := false, reqsizeAfter := s.reqsize
      fwdStarted := false }
  else if s.resultError ∧ ¬s.entryAborted then
    { action := .ignoredStoreError, tag := none
      updateOnNotModifiedCalled := false, staleIfHitAfter := s.staleIfHit
      ignoredMarkerSet := false, reqsizeAfter := s.reqsize
      fwdStarted := false }
  else if s.collapsedRevalidation = .crSlave ∧ ¬s.mayStartHitting then
    let m := processMiss s.miss
    { action := .slaveFallbackMiss m, tag := some .TCP_MISS
      updateOnNotModifiedCalled := false, staleIfHitAfter := s.staleIfHit
      ignoredMarkerSet := false, reqsizeAfter := s.reqsize
      fwdStarted := m.fwdStarted }
  else if s.entryAborted then
    { action := .sendOldEntry, tag := some .TCP_REFRESH_FAIL_OLD
      updateOnNotModifiedCalled := false, staleIfHitAfter := s.staleIfHit
      ignoredMarkerSet := false, reqsizeAfter := s.newReqsize
      fwdStarted := false }
  else if s.newStatus = 304 then
    if s.clientImsFlag ∧ ¬s.oldModifiedSinceClientIms then
      { action := .sendUpstream, tag := some .TCP_REFRESH_UNMODIFIED
        updateOnNotModifiedCalled := true, staleIfHitAfter := false
        ignoredMarkerSet := false, reqsizeAfter := s.newReqsize
        fwdStarted := false }
    else
      { action := .sendOldEntry, tag := some .TCP_REFRESH_UNMODIFIED
        updateOnNotModifiedCalled := true, staleIfHitAfter := false
        ignoredMarkerSet := false, reqsizeAfter := s.newReqsize
        fwdStarted := false }
  else if 0 < s.newStatus ∧ s.newStatus < 500 then
    if s.newOlderThanOld then
      { action := .sendOldEntry, tag := none
        updateOnNotModifiedCalled := false, staleIfHitAfter := s.staleIfHit
        ignoredMarkerSet := true, reqsizeAfter := s.newReqsize
        fwdStarted := false }
    else
      { action := .sendUpstream, tag := some .TCP_REFRESH_MODIFIED
        updateOnNotModifiedCalled := false, staleIfHitAfter := s.staleIfHit
        ignoredMarkerSet := false, reqsizeAfter := s.newReqsize
        fwdStarted := false }
  else if s.failOnValidationError then
    { action := .sendUpstream, tag := some .TCP_REFRESH_FAIL_ERR
      updateOnNotModifiedCalled := false, staleIfHitAfter := s.staleIfHit
      ignoredMarkerSet := false, reqsizeAfter := s.newReqsize
      fwdStarted := false }
  else
    { action := .sendOldEntry, tag := some .TCP_REFRESH_FAIL_OLD
      updateOnNotModifiedCalled := false, staleIfHitAfter := s.staleIfHit
      ignoredMarkerSet := false, reqsizeAfter := s.newReqsize
      fwdStarted := false }

/-! ## checkTransferDone / replyStatus (claim C4) -/

/-- The per-call stream status published to the stream head
(`clientStream_status_t`). -/
inductive StreamStatus where
  | NONE
  | COMPLETE
  | UNPLANNED_COMPLETE
  | FAILED
  deriving DecidableEq

/-- Inputs of `replyStatus` and `checkTransferDone`: entry state, byte
accounting, and the reply's expected sizes.  Sizes and offsets are `Int`
(the C++ code uses signed 64-bit quantities; `-1` means unknown). -/
structure ReplyStatusState where
  /-- Source `http->storeEntry() != nullptr` -/
  hasEntry : Bool
  /-- Source `EBIT_TEST(entry->flags, ENTRY_ABORTED)` -/
  entryAborted : Bool
  /-- Source `EBIT_TEST(entry->flags, ENTRY_BAD_LENGTH)` -/
  entryBadLength : Bool
  /-- Source `http->flags.done_copying` -/
  doneCopying : Bool
  /-- Source `http->request->flags.chunkedReply` -/
  chunkedReply : Bool
  /-- the context's `flags.complete` -/
  flagsComplete : Bool
  /-- Source `entry->store_status == STORE_OK` -/
  storeOK : Bool
  /-- Source `entry->objectLen()` -/
  objectLen : Int
  /-- the context's `headers_sz` -/
  headersSz : Int
  /-- Source `http->out.offset` -/
  outOffset : Int
  /-- Source `http->out.headers_sz` -/
  outHeadersSz : Int
  /-- Source `http->out.size` -/
  outSize : Int
  /-- Source `mem->baseReply().content_length` (expected body size while the
  entry is still `STORE_PENDING`; negative when unknown) -/
  baseContentLength : Int
  /-- Source `baseReply().bodySize(http->request->method)` (negative when
  unknown) -/
  bodySizeForMethod : Int
  /-- Source `http->gotEnough()` -/
  gotEnough : Bool
  /-- Source `reply->receivedBodyTooLarge(*http->request, http->out.offset - 4096)` -/
  receivedBodyTooLarge : Bool
  deriving DecidableEq

/-- Source `clientReplyContext::storeOKTransferDone`: a `STORE_OK` entry is done
when the client-side offset has reached the object length minus the header
size. -/
def storeOKTransferDone (s : ReplyStatusState) : Bool :=
  decide (s.outOffset ≥ s.objectLen - s.headersSz)

/-- Source `clientReplyContext::storeNotOKTransferDone`: a `STORE_PENDING` entry
is done only once headers are parsed, the expected body size is known, and
the written size has reached it. -/
def storeNotOKTransferDone (s : ReplyStatusState) : Bool :=
  if s.headersSz = 0 then false
  else if s.baseContentLength < 0 then false
  else decide (s.outSize ≥ s.baseContentLength + s.outHeadersSz)

/-- Source `clientReplyContext::checkTransferDone`, translated from the C++
source (the `int` result becomes `Bool`). -/
def checkTransferDone (s : ReplyStatusState) : Bool :=
  if ¬s.hasEntry then false
  else if s.doneCopying then true
  else if s.chunkedReply ∧ ¬s.flagsComplete then false
  else if s.storeOK then storeOKTransferDone s
  else storeNotOKTransferDone s

/-- Source `clientReplyContext::replyStatus`, translated from the C++ source. -/
def replyStatus (s : ReplyStatusState) : StreamStatus :=
  if ¬s.hasEntry then .FAILED
  else if s.entryAborted then .FAILED
  else
    let done := checkTransferDone s
    if done ∨ s.flagsComplete then
      if s.entryBadLength then .UNPLANNED_COMPLETE
      else if ¬done then .FAILED
      else if s.bodySizeForMethod ≥ 0 ∧ ¬s.gotEnough then
        .UNPLANNED_COMPLETE
      else .COMPLETE
    else if s.receivedBodyTooLarge then .FAILED
    else .NONE

/-! ## purgeRequest / purgeDoPurge (claim C9) -/

/-- Inputs of the purge path: the `enable_purge` configuration switch and
the outcome of the store lookups for each purgeable variant. -/
structure PurgeState where
  /-- Source `Config2.onoff.enable_purge` -/
  enablePurge : Bool
  /-- Source `storeGetPublicByRequestMethod(request, METHOD_GET)`: `none` when no
  entry exists, `some special` with the entry's `ENTRY_SPECIAL` flag -/
  getEntry : Option Bool
  /-- Source `storeGetPublicByRequestMethod(request, METHOD_HEAD)` finds an
  entry -/
  headEntryExists : Bool
  /-- Source `!vary_headers.isEmpty() && vary_headers.find('=') != npos` -/
  varyKeyWithEq : Bool
  /-- Source `storeGetPublic(baseUri, METHOD_GET)` finds an entry -/
  varyGetExists : Bool
  /-- Source `storeGetPublic(baseUri, METHOD_HEAD)` finds an entry -/
  varyHeadExists : Bool
  deriving DecidableEq

/-- The cached variants the purge path can evict. -/
inductive PurgeItem where
  | getVariant
  | headVariant
  | varyGetVariant
  | varyHeadVariant
  deriving DecidableEq

/-- How the purge path answers the client. -/
inductive PurgeOutcome where
  /-- purging disabled: 403 Access Denied error page -/
  | accessDenied403
  /-- the GET entry is `ENTRY_SPECIAL`: 403, entry abandoned -/
  | specialDenied403
  /-- a synthesized reply carrying the final purge status code -/
  | purgeReply (status : Nat)
  deriving DecidableEq

/-- Result of the purge path: the reply outcome, the variants evicted (in
eviction order), whether the special GET entry was abandoned, and whether
the host's IP-cache entries were invalidated. -/
structure PurgeResult where
  outcome : PurgeOutcome
  evicted : List PurgeItem
  abandonedSpecial : Bool
  ipCacheInvalidated : Bool
  deriving DecidableEq

/-- Source `clientReplyContext::purgeDoPurge`, translated from the C++ source.
`purgeEntry` always succeeds, releasing the entry and setting the purge
status to 200. -/
def purgeDoPurge (s : PurgeState) : PurgeResult :=
  match s.getEntry with
  | some true =>
    -- special entries are only METHOD_GET entries without variance
    { outcome := .specialDenied403, evicted := []
      abandonedSpecial := true, ipCacheInvalidated := true }
  | g =>
    let ev0 : List PurgeItem := if g = some false then [.getVariant] else []
    let ev1 := ev0 ++ (if s.headEntryExists then [.headVariant] else [])
    let ev2 := ev1 ++
      (if s.varyKeyWithEq then
        (if s.varyGetExists then [.varyGetVariant] else []) ++
          (if s.varyHeadExists then [.varyHeadVariant] else [])
      else [])
    -- purgeStatus starts at scNone; each purgeEntry sets it to scOkay;
    -- if it is still scNone the reply status becomes scNotFound
    let status : Nat := if ev2 = [] then 404 else 200
    { outcome := .purgeReply status, evicted := ev2
      abandonedSpecial := false, ipCacheInvalidated := true }

/-- Source `clientReplyContext::purgeRequest`: deny with 403 when purging is
disabled, otherwise invalidate the IP cache and run `purgeDoPurge`. -/
def purgeRequest (s : PurgeState) : PurgeResult :=
  if ¬s.enablePurge then
    { outcome := .accessDenied403, evicted := []
      abandonedSpecial := false, ipCacheInvalidated := false }
  else
    purgeDoPurge s

/-! ## buildReplyHeader (claims C5, C6)

`clientReplyContext::buildReplyHeader` rewrites the cloned outgoing reply
header.  The header is a list of `(type, value)` entries; `putStr`-style
operations append, `delById` filters. -/

/-- The header field names manipulated by `buildReplyHeader`. -/
inductive HdrType where
  | SET_COOKIE
  | PROXY_AUTHENTICATE
  | PROXY_AUTHORIZATION
  | AGE
  | DATE
  | EXPIRES
  | WWW_AUTHENTICATE
  | PROXY_SUPPORT
  | CONNECTION
  | CACHE_STATUS
  | TRANSFER_ENCODING
  | VIA
  | SURROGATE_CONTROL
  | CONTENT_LENGTH
  | KEEP_ALIVE
  | TE
  | TRAILER
  | UPGRADE
  /-- an extension header added with `putExt` (`X-Origin-Date`, …) -/
  | EXT (name : String)
  /-- any other header carried by the stored reply -/
  | OTHER (name : String)
  deriving DecidableEq

/-- One header entry: field name and value. -/
abbrev HeaderEntry := HdrType × String

/-- Source `HttpHeader::delById`: remove every entry of the given type. -/
def delById (t : HdrType) (l : List HeaderEntry) : List HeaderEntry :=
  l.filter (fun e => e.1 ≠ t)

/-- Source `HttpHeader::has`. -/
def hasHdr (t : HdrType) (l : List HeaderEntry) : Bool :=
  l.any (fun e => e.1 = t)

/-- Source `HttpHeader::findEntry`: the value of the first entry of the given
type. -/
def findHdr (t : HdrType) (l : List HeaderEntry) : Option String :=
  (l.find? (fun e => e.1 = t)).map (fun e => e.2)

/-- Modelled from the spec: `HttpHeader::removeHopByHopEntries` (§4.7.3
"Strip all hop-by-hop entries") lives outside the reply engine; the
hop-by-hop set is Connection, Keep-Alive, Proxy-Authenticate,
Proxy-Authorization, TE, Trailer, Transfer-Encoding, Upgrade, and Squid's
Proxy-Connection (folded into `OTHER`-free types here). -/
def isHopByHop : HdrType → Bool
  | .CONNECTION => true
  | .KEEP_ALIVE => true
  | .PROXY_AUTHENTICATE => true
  | .PROXY_AUTHORIZATION => true
  | .TE => true
  | .TRAILER => true
  | .TRANSFER_ENCODING => true
  | .UPGRADE => true
  | _ => false

/-- Strip every hop-by-hop entry. -/
def removeHopByHopEntries (l : List HeaderEntry) : List HeaderEntry :=
  l.filter (fun e => ¬isHopByHop e.1)

/-- Inputs of `buildReplyHeader`: the cloned reply's header and the
request/configuration predicates consulted by the routine. -/
structure BuildState where
  /-- Source `reply->header` after cloning the freshest stored reply -/
  replyHdr : List HeaderEntry
  /-- Source `http->loggingTags().isTcpHit()` -/
  isHit : Bool
  /-- Source `collapsedRevalidation == crSlave` -/
  collapsedSlave : Bool
  /-- Source `request->peer_login` equals `"PASS"` or `"PASSTHRU"` -/
  peerLoginPass : Bool
  /-- Source `reply->removeIrrelevantContentLength()` drops `Content-Length` -/
  contentLengthIrrelevant : Bool
  /-- Source `EBIT_TEST(http->storeEntry()->flags, ENTRY_SPECIAL)` -/
  entrySpecial : Bool
  /-- Source `http->getConn()->port->actAsOrigin` -/
  actAsOrigin : Bool
  /-- Source `http->getConn() != nullptr` -/
  hasConn : Bool
  /-- Source `http->storeEntry() != nullptr` -/
  hasEntry : Bool
  /-- Source `http->storeEntry()->timestamp` -/
  entryTimestamp : Int
  /-- Source `http->storeEntry()->expires` -/
  entryExpires : Int
  /-- Source `squid_curtime` -/
  squidCurtime : Int
  /-- Source `http->loggingTags().oldType == LOG_TCP_DENIED` -/
  loggingDenied : Bool
  /-- Source `request->flags.connectionAuthDisabled` -/
  connectionAuthDisabled : Bool
  /-- Source `request->flags.accelerated` -/
  accelerated : Bool
  /-- Source `request->flags.intercepted` -/
  intercepted : Bool
  /-- Source `uniqueHostname()` -/
  hostname : String
  /-- Source `http->loggingTags().cacheStatusSource()` -/
  hitOrFwdTag : Option String
  /-- the recorded `firstStoreLookup_` detail -/
  firstLookupDetail : Option String
  /-- Source `request->multipartRangeRequest()` -/
  multipartRange : Bool
  /-- Source `reply->sline.version.protocol == AnyP::PROTO_HTTP` -/
  replyProtoHTTP : Bool
  /-- Source `request->http_ver >= Http::ProtocolVersion(1,1)` -/
  reqHttpVer11 : Bool
  /-- Source `reply->sline.status()` -/
  replyStatusCode : Nat
  /-- Source `Config.onoff.error_pconns` -/
  errorPconns : Bool
  /-- Source `Config.onoff.client_pconns` -/
  clientPconns : Bool
  /-- Source `request->flags.mustKeepalive` before the call -/
  mustKeepalive0 : Bool
  /-- Source `request->flags.proxyKeepalive` before the call -/
  proxyKeepalive0 : Bool
  /-- Source `shutting_down` -/
  shuttingDown : Bool
  /-- Source `request->flags.connectionAuth` -/
  connectionAuth : Bool
  /-- Source `reply->keep_alive` -/
  replyKeepAlive : Bool
  /-- Source `reply->bodySize(request->method) < 0` -/
  bodySizeUnknown : Bool
  /-- Source `fdUsageHigh()` -/
  fdUsageHigh : Bool
  /-- Source `request->flags.sslBumped` -/
  sslBumped : Bool
  /-- Source `reply->persistent()` -/
  replyPersistent : Bool
  /-- Source `request->pinnedConnection() != nullptr` -/
  pinned : Bool
  /-- Source `Comm::IsConnOpen(conn->port->listenConn)` -/
  listenConnOpen : Bool
  /-- Source `request->header.has(Http::HdrType::SURROGATE_CAPABILITY)` -/
  reqHasSurrogateCapability : Bool
  /-- the value `hdr->addVia` appends -/
  viaValue : String
  deriving DecidableEq

/-- Outputs of `buildReplyHeader`: the rewritten header and the request
flags it decides (`proxyKeepalive`, `mustKeepalive`, `chunkedReply`). -/
structure BuildResult where
  hdr : List HeaderEntry
  proxyKeepalive : Bool
  mustKeepalive : Bool
  chunkedReply : Bool
  deriving DecidableEq

/-- Preserve the origin's `Date` value in an `X-Origin-Date` extension
entry (when a `Date` entry exists). -/
def xOriginDate (hdr : List HeaderEntry) : List HeaderEntry :=
  match findHdr .DATE hdr with
  | some v => hdr ++ [(.EXT "X-Origin-Date", v)]
  | none => hdr

/-- Swap `Expires` to current time, preserving the origin's value in
`X-Origin-Expires`, when an `Expires` entry exists and the entry's expiry
is known. -/
def xOriginExpires (s : BuildState) (hdr : List HeaderEntry) :
    List HeaderEntry :=
  match findHdr .EXPIRES hdr with
  | some v =>
    if s.entryExpires ≥ 0 then
      delById .EXPIRES (hdr ++ [(.EXT "X-Origin-Expires", v)]) ++
        [(.EXPIRES,
          toString (s.squidCurtime + s.entryExpires - s.entryTimestamp))]
    else hdr
  | none => hdr

/-- The origin-simulation branch of the hit Age/Date adjustment: swap
`Date` (and `Expires`) to current time, preserving the origin's values in
`X-Origin-*` extension entries, and emit `X-Cache-Age`. -/
def originDateSwap (s : BuildState) (hdr : List HeaderEntry) :
    List HeaderEntry :=
  let hdr2 := delById .DATE (xOriginDate hdr) ++
    [(.DATE, toString s.squidCurtime)]
  let hdr3 := xOriginExpires s hdr2
  if s.entryTimestamp ≤ s.squidCurtime then
    hdr3 ++ [(.EXT "X-Cache-Age",
      toString (s.squidCurtime - s.entryTimestamp))]
  else hdr3

/-- The hit-path Age/Date adjustment block of `buildReplyHeader` (applied
only when `is_hit`): delete any upstream `Age`, overwrite `Date` for
SPECIAL entries and origin-simulating ports (preserving `X-Origin-*`), and
emit `Age`/`X-Cache-Age` from the stored timestamp. -/
def ageAdjust (s : BuildState) (hdr0 : List HeaderEntry) :
    List HeaderEntry :=
  let hdr := delById .AGE hdr0
  if s.entrySpecial then
    delById .DATE hdr ++ [(.DATE, toString s.squidCurtime)]
  else if s.hasConn ∧ s.actAsOrigin then
    originDateSwap s hdr
  else if s.entryTimestamp ≤ s.squidCurtime then
    hdr ++ [(.AGE, toString (s.squidCurtime - s.entryTimestamp))]
  else hdr

/-- The RFC 2616 §14.18 block: add a `Date` header when missing (from the
stored timestamp when available, else from the clock; Squid BUG #3279 is
only logged when neither exists). -/
def ensureDate (s : BuildState) (hdr : List HeaderEntry) :
    List HeaderEntry :=
  if hasHdr .DATE hdr then hdr
  else if ¬s.hasEntry then hdr ++ [(.DATE, toString s.squidCurtime)]
  else if s.entryTimestamp > 0 then
    hdr ++ [(.DATE, toString s.entryTimestamp)]
  else hdr

/-- Whether a `WWW-Authenticate` value names a connection-oriented scheme:
`strncasecmp` against `NTLM`, `Negotiate`, `Kerberos`, each followed by
end-of-string or a space. -/
def isConnAuthScheme (v : String) : Bool :=
  let w := v.toLower
  w = "ntlm" ∨ w.startsWith "ntlm " ∨
    w = "negotiate" ∨ w.startsWith "negotiate " ∨
    w = "kerberos" ∨ w.startsWith "kerberos "

/-- The entry scan of the connection-auth filter: with connection auth
disabled, delete every matching `WWW-Authenticate` entry and keep
scanning; otherwise stop at the first match (`break`), leaving the list
unchanged, and report the match. -/
def filterConnAuthList (disabled : Bool) :
    List HeaderEntry → List HeaderEntry × Bool
  | [] => ([], false)
  | e :: rest =>
    if e.1 = .WWW_AUTHENTICATE ∧ isConnAuthScheme e.2 then
      if disabled then filterConnAuthList disabled rest
      else (e :: rest, true)
    else
      let p := filterConnAuthList disabled rest
      (e :: p.1, p.2)

/-- The "Filter unproxyable authentication types" block of
`buildReplyHeader`.  Returns the filtered header and whether
`request->flags.mustKeepalive` was forced on. -/
def wwwAuthFilter (s : BuildState) (hdr : List HeaderEntry) :
    List HeaderEntry × Bool :=
  if ¬s.loggingDenied ∧ hasHdr .WWW_AUTHENTICATE hdr then
    let p := filterConnAuthList s.connectionAuthDisabled hdr
    if p.2 then
      if ¬s.accelerated ∧ ¬s.intercepted then
        (p.1 ++ [(.PROXY_SUPPORT, "Session-Based-Authentication"),
          (.CONNECTION, "Proxy-support")], true)
      else (p.1, true)
    else (p.1, false)
  else (hdr, false)

/-- The `Cache-Status` value:
`<hostname><hit-or-fwd-tag>[;detail=<first-lookup-detail>]`. -/
def cacheStatusValue (s : BuildState) : String :=
  s.hostname ++
    (match s.hitOrFwdTag with
     | some t => t
     | none => "") ++
    (match s.firstLookupDetail with
     | some d => ";detail=" ++ d
     | none => "")

/-- The keep-alive decision cascade of `buildReplyHeader`: each `else if`
clause may clear `request->flags.proxyKeepalive`.  `mustKA` is
`mustKeepalive` after the connection-auth filter; `maySendChunked` is the
chunking-permissibility predicate computed just above the cascade. -/
def keepAliveDecision (s : BuildState) (mustKA maySendChunked : Bool) :
    Bool :=
  let ka := s.proxyKeepalive0
  if ¬s.errorPconns ∧ 400 ≤ s.replyStatusCode ∧ ¬mustKA then false
  else if ¬s.clientPconns ∧ ¬mustKA then false
  else if ka ∧ s.shuttingDown then false
  else if s.connectionAuth ∧ ¬s.replyKeepAlive then false
  else if s.bodySizeUnknown ∧ ¬maySendChunked then false
  else if s.fdUsageHigh ∧ ¬mustKA then false
  else if s.sslBumped ∧ ¬s.replyPersistent then false
  else if s.pinned ∧ ¬s.replyPersistent then false
  else if s.hasConn ∧ ¬s.listenConnOpen then false
  else ka

/-- Stages 1–5 of `buildReplyHeader`: strip `Set-Cookie` on hits and
collapsed slaves, strip `Proxy-Authenticate` unless the peer passes
authentication through, strip hop-by-hop entries and irrelevant
`Content-Length`, apply the hit Age/Date adjustment, and ensure `Date`. -/
def strippedHdr (s : BuildState) : List HeaderEntry :=
  let hdr := s.replyHdr
  let hdr := if s.isHit ∨ s.collapsedSlave then delById .SET_COOKIE hdr
    else hdr
  let hdr := if ¬s.peerLoginPass then delById .PROXY_AUTHENTICATE hdr
    else hdr
  let hdr := removeHopByHopEntries hdr
  let hdr := if s.contentLengthIrrelevant then delById .CONTENT_LENGTH hdr
    else hdr
  let hdr := if s.isHit then ageAdjust s hdr else hdr
  ensureDate s hdr

/-- Source `request->flags.mustKeepalive` after the connection-auth filter. -/
def buildMustKeepalive (s : BuildState) : Bool :=
  s.mustKeepalive0 ∨ (wwwAuthFilter s (strippedHdr s)).2

/-- The header after the connection-auth filter and the `Cache-Status`
emission. -/
def taggedHdr (s : BuildState) : List HeaderEntry :=
  (wwwAuthFilter s (strippedHdr s)).1 ++
    [(.CACHE_STATUS, cacheStatusValue s)]

/-- Source `maySendChunkedReply`: not a multipart range request, the response is
HTTP, and the client speaks HTTP/1.1 or newer. -/
def maySendChunkedReply (s : BuildState) : Bool :=
  ¬s.multipartRange ∧ s.replyProtoHTTP ∧ s.reqHttpVer11

/-- The final `request->flags.proxyKeepalive` decision. -/
def buildKeepalive (s : BuildState) : Bool :=
  keepAliveDecision s (buildMustKeepalive s) (maySendChunkedReply s)

/-- The chunked-reply decision: chunking is permissible and the body size
is unknown. -/
def buildChunked (s : BuildState) : Bool :=
  maySendChunkedReply s ∧ s.bodySizeUnknown

/-- The header after the `Transfer-Encoding: chunked` emission and
`addVia`. -/
def viaHdr (s : BuildState) : List HeaderEntry :=
  (if buildChunked s then taggedHdr s ++ [(.TRANSFER_ENCODING, "chunked")]
   else taggedHdr s) ++ [(.VIA, s.viaValue)]

/-- The finished header: the explicit `Connection: keep-alive`/`close`
signal followed by the Surrogate-Control drop. -/
def finalHdr (s : BuildState) : List HeaderEntry :=
  let hdr := viaHdr s ++
    [(.CONNECTION, if buildKeepalive s then "keep-alive" else "close")]
  if hasHdr .SURROGATE_CONTROL hdr ∧ ¬s.reqHasSurrogateCapability then
    delById .SURROGATE_CONTROL hdr
  else hdr

/-- Source `clientReplyContext::buildReplyHeader`, translated stage by stage from
the C++ source.  The auth-module reply headers (`AddReplyAuthHeader`) and
the final user-configured mangling (`httpHdrMangleList`) live outside this
translation unit and outside the engine's own decisions; they are not part
of this model. -/
def buildReplyHeader (s : BuildState) : BuildResult :=
  { hdr := finalHdr s
    proxyKeepalive := buildKeepalive s
    mustKeepalive := buildMustKeepalive s
    chunkedReply := buildChunked s }

/-! ## sendMoreData / cacheHit / processReplyAccessResult (claim C8)

The callback entry points of the context.  Each model returns the new
values of the fields the routine can change, so that "returns immediately
without any state change" is expressible. -/

/-- Inputs of `sendMoreData`: context flags, connection state, and the
delivered store buffer. -/
structure SendState where
  /-- the context's `deleting` flag -/
  deleting : Bool
  /-- Source `http->getConn() != nullptr` -/
  hasConn : Bool
  /-- Source `conn->isOpen()` -/
  connOpen : Bool
  /-- Source `conn->pinning.zeroReply` -/
  pinnedZeroReply : Bool
  /-- Source `reqofs` before the call -/
  reqofs : Nat
  /-- Source `reqsize` before the call -/
  reqsize : Nat
  /-- Source `result.length` -/
  resultLength : Nat
  /-- Source `result.flags.error` -/
  resultError : Bool
  /-- Source `http->storeEntry() != nullptr` -/
  hasEntry : Bool
  /-- Source `EBIT_TEST(http->storeEntry()->flags, ENTRY_ABORTED)` -/
  entryAborted : Bool
  /-- the context's `flags.headersSent` -/
  headersSent : Bool
  /-- the context's `flags.storelogiccomplete` -/
  storelogiccomplete : Bool
  /-- the context's `flags.complete` -/
  flagsComplete : Bool
  deriving DecidableEq

/-- What `sendMoreData` ends up doing. -/
inductive SendAction where
  /-- Source `deleting` short-circuit -/
  | ignoredDeleting
  /-- connection already closing -/
  | ignoredClosedConn
  /-- pinned zero reply -/
  | ignoredPinnedZero
  /-- Source `sendStreamError`: error buffer to the next node -/
  | streamError
  /-- headers already sent: `pushStreamData` -/
  | pushData
  /-- first delivery: `cloneReply` + `processReplyAccess` -/
  | buildHeaders
  deriving DecidableEq

/-- Result of `sendMoreData`: the action and the context fields after. -/
structure SendResult where
  action : SendAction
  reqofsAfter : Nat
  reqsizeAfter : Nat
  storelogiccompleteAfter : Bool
  flagsCompleteAfter : Bool
  deriving DecidableEq

/-- Source `clientReplyContext::sendMoreData`, translated from the C++ source. -/
def sendMoreData (s : SendState) : SendResult :=
  if s.deleting then
    { action := .ignoredDeleting, reqofsAfter := s.reqofs
      reqsizeAfter := s.reqsize
      storelogiccompleteAfter := s.storelogiccomplete
      flagsCompleteAfter := s.flagsComplete }
  else if s.hasConn ∧ ¬s.connOpen then
    { action := .ignoredClosedConn, reqofsAfter := s.reqofs
      reqsizeAfter := s.reqsize
      storelogiccompleteAfter := s.storelogiccomplete
      flagsCompleteAfter := s.flagsComplete }
  else if s.hasConn ∧ s.pinnedZeroReply then
    { action := .ignoredPinnedZero, reqofsAfter := s.reqofs
      reqsizeAfter := s.reqsize
      storelogiccompleteAfter := s.storelogiccomplete
      flagsCompleteAfter := s.flagsComplete }
  else
    let reqofs1 := s.reqofs + s.resultLength
    if (s.hasEntry ∧ s.entryAborted) ∨ s.resultError ∨ reqofs1 = 0 then
      { action := .streamError, reqofsAfter := reqofs1
        reqsizeAfter := reqofs1, storelogiccompleteAfter := true
        flagsCompleteAfter := true }
    else if s.headersSent then
      { action := .pushData, reqofsAfter := reqofs1
        reqsizeAfter := reqofs1, storelogiccompleteAfter := true
        flagsCompleteAfter := s.flagsComplete ∨ s.resultLength = 0 }
    else
      { action := .buildHeaders, reqofsAfter := reqofs1
        reqsizeAfter := reqofs1, storelogiccompleteAfter := true
        flagsCompleteAfter := s.flagsComplete }

/-- The outcome of `varyEvaluateMatch`. -/
inductive VaryResult where
  | vNone
  | vMatch
  | vOther
  | vCancel
  deriving DecidableEq

/-- Inputs of `cacheHit`: context flags, the delivered store buffer, and
the predicates of the entry and request the routine consults. -/
structure HitState where
  /-- the context's `deleting` flag -/
  deleting : Bool
  /-- Source `http->storeEntry() != nullptr` -/
  hasEntry : Bool
  /-- Source `result.flags.error` -/
  resultError : Bool
  /-- Source `e->mayStartHitting()` -/
  mayStartHitting : Bool
  /-- Source `result.length` -/
  resultLength : Nat
  /-- Source `reqofs` before the call -/
  reqofs : Nat
  /-- Source `reqsize` before the call -/
  reqsize : Nat
  /-- Source `http->request->storeId().cmp(e->mem_obj->storeId()) == 0` -/
  storeIdMatches : Bool
  /-- Source `varyEvaluateMatch(e, r)` -/
  vary : VaryResult
  /-- Source `r->method == Http::METHOD_PURGE` -/
  methodPurge : Bool
  /-- Source `e->checkNegativeHit()` -/
  negativeHit : Bool
  /-- Source `r->flags.noCacheHack()` -/
  noCacheHack : Bool
  /-- Source `blockedHit()`: the `send_hit` ACL denies this hit -/
  blockedHit : Bool
  /-- Source `http->flags.internal` -/
  internalFlag : Bool
  /-- Source `refreshCheckHTTP(e, r)`: the entry is stale -/
  refreshStale : Bool
  /-- Source `e->lastModified() >= 0` -/
  lastModifiedKnown : Bool
  /-- Source `r->flags.noCache` -/
  noCache : Bool
  /-- the URL scheme is HTTP or HTTPS -/
  schemeHttpOrHttps : Bool
  /-- Source `r->conditional()` -/
  conditionalReq : Bool
  /-- inputs for a `processConditional` run -/
  cond : CondState
  /-- Source `e->mem_status == IN_MEMORY` -/
  memInMemory : Bool
  /-- Source `Config.onoff.offline` -/
  offline : Bool
  deriving DecidableEq

/-- What `cacheHit` ends up doing. -/
inductive HitAction where
  | ignoredDeleting
  | ignoredNoEntry
  /-- swap-in failure: `LOG_TCP_SWAPFAIL_MISS` + `processMiss` -/
  | swapFailMiss
  /-- entry became unshareable: MISS -/
  | unshareableMiss
  /-- empty store buffer: MISS -/
  | emptyBufferMiss
  /-- stored `storeId` differs from the request's: MISS -/
  | urlMismatchMiss
  /-- Source `VARY_OTHER`: detach and re-enter lookup -/
  | varyRequery
  /-- Source `VARY_CANCEL`: vary object loop, MISS -/
  | varyCancelMiss
  /-- PURGE on a hit -/
  | purgePath
  /-- negative cache entry served (`LOG_TCP_NEGATIVE_HIT`) -/
  | negativeHitSend
  /-- Source `send_hit` denies: MISS -/
  | blockedHitMiss
  /-- stale and last-modified unknown: MISS -/
  | noLastModMiss
  /-- stale and client sent no-cache: `LOG_TCP_CLIENT_REFRESH_MISS` -/
  | clientRefreshMiss
  /-- stale HTTP(S) entry: `processExpired` (revalidation path) -/
  | revalidate
  /-- stale non-HTTP scheme: MISS -/
  | otherSchemeMiss
  /-- Source `processConditional` handled the request -/
  | conditionalHandled (a : CondAction)
  /-- plain cache hit served with the given tag -/
  | plainHit (tag : LogTag)
  deriving DecidableEq

/-- Result of `cacheHit`: the action and `reqsize` after the call. -/
structure HitResult where
  action : HitAction
  reqsizeAfter : Nat
  deriving DecidableEq

/-- The tag of a plain cache hit: `TCP_MEM_HIT` when memory-resident,
`TCP_OFFLINE_HIT` in offline mode, otherwise the pre-set `TCP_HIT`. -/
def plainHitTag (s : HitState) : LogTag :=
  if s.memInMemory then .TCP_MEM_HIT
  else if s.offline then .TCP_OFFLINE_HIT
  else .TCP_HIT

/-- Source `clientReplyContext::cacheHit`, translated from the C++ source. -/
def cacheHit (s : HitState) : HitResult :=
  if s.deleting then
    { action := .ignoredDeleting, reqsizeAfter := s.reqsize }
  else if ¬s.hasEntry then
    { action := .ignoredNoEntry, reqsizeAfter := s.reqsize }
  else if s.resultError then
    { action := .swapFailMiss, reqsizeAfter := s.reqsize }
  else if ¬s.mayStartHitting then
    { action := .unshareableMiss, reqsizeAfter := s.reqsize }
  else if s.resultLength = 0 then
    { action := .emptyBufferMiss, reqsizeAfter := s.reqsize }
  else
    let reqsize1 := s.resultLength + s.reqofs
    if ¬s.storeIdMatches then
      { action := .urlMismatchMiss, reqsizeAfter := reqsize1 }
    else if s.vary = .vOther then
      { action := .varyRequery, reqsizeAfter := reqsize1 }
    else if s.vary = .vCancel then
      { action := .varyCancelMiss, reqsizeAfter := reqsize1 }
    else if s.methodPurge then
      { action := .purgePath, reqsizeAfter := reqsize1 }
    else if s.negativeHit ∧ ¬s.noCacheHack then
      { action := .negativeHitSend, reqsizeAfter := reqsize1 }
    else if s.blockedHit then
      { action := .blockedHitMiss, reqsizeAfter := reqsize1 }
    else if ¬s.internalFlag ∧ s.refreshStale then
      if ¬s.lastModifiedKnown then
        { action := .noLastModMiss, reqsizeAfter := reqsize1 }
      else if s.noCache then
        { action := .clientRefreshMiss, reqsizeAfter := reqsize1 }
      else if s.schemeHttpOrHttps then
        { action := .revalidate, reqsizeAfter := reqsize1 }
      else
        { action := .otherSchemeMiss, reqsizeAfter := reqsize1 }
    else if s.conditionalReq then
      let c := processConditional s.cond
      if c.handled then
        { action := .conditionalHandled c.action, reqsizeAfter := reqsize1 }
      else
        { action := .plainHit (plainHitTag s), reqsizeAfter := reqsize1 }
    else
      { action := .plainHit (plainHitTag s), reqsizeAfter := reqsize1 }

/-- Inputs of `processReplyAccessResult`: the ACL answer and the context
fields the routine reads and writes. -/
structure AccessState where
  /-- the context's `deleting` flag at callback time -/
  deleting : Bool
  /-- Source `accessAllowed.allowed()` -/
  allowed : Bool
  /-- the context's `flags.headersSent` before the call -/
  headersSent : Bool
  /-- Source `reqofs` before the call -/
  reqofs : Nat
  /-- Source `reply->hdr_sz` -/
  replyHdrSz : Nat
  /-- Source `http->request->method == Http::METHOD_HEAD` -/
  methodHead : Bool
  /-- the context's `flags.complete` before the call -/
  flagsComplete : Bool
  /-- Source `http->flags.done_copying` before the call -/
  doneCopying : Bool
  deriving DecidableEq

/-- What `processReplyAccessResult` ends up doing. -/
inductive AccessAction where
  /-- denied: `LOG_TCP_DENIED_REPLY` + deny page into a fresh entry -/
  | denyError
  /-- allowed: headers marked sent, body sliced to the next node -/
  | sendHeaders
  deriving DecidableEq

/-- Result of `processReplyAccessResult`: the action and the context
fields after the call. -/
structure AccessResult where
  action : AccessAction
  headersSentAfter : Bool
  reqofsAfter : Nat
  bodySize : Nat
  flagsCompleteAfter : Bool
  doneCopyingAfter : Bool
  deriving DecidableEq

/-- Source `clientReplyContext::processReplyAccessResult`, translated from the
C++ source.  Unlike `sendMoreData`, `cacheHit`, and `handleIMSReply`, this
callback performs no check of the `deleting` flag. -/
def processReplyAccessResult (s : AccessState) : AccessResult :=
  if ¬s.allowed then
    { action := .denyError, headersSentAfter := s.headersSent
      reqofsAfter := s.reqofs, bodySize := 0
      flagsCompleteAfter := s.flagsComplete
      doneCopyingAfter := s.doneCopying }
  else
    let negBody := s.reqofs < s.replyHdrSz
    let reqofs1 := if negBody then s.replyHdrSz else s.reqofs
    let body1 := if negBody then 0 else s.reqofs - s.replyHdrSz
    if s.methodHead then
      { action := .sendHeaders, headersSentAfter := true
        reqofsAfter := reqofs1, bodySize := 0
        flagsCompleteAfter := true, doneCopyingAfter := true }
    else
      { action := .sendHeaders, headersSentAfter := true
        reqofsAfter := reqofs1, bodySize := body1
        flagsCompleteAfter := s.flagsComplete
        doneCopyingAfter := s.doneCopying }

/-! ## Concrete states and auxiliary predicates used by the verification -/

/-- A context with an active subscription and no saved shadow, used to
instantiate the round-trip theorem. -/
def ctxW : CtxState :=
  { entry := some 7, sc := some 3, reqofs := 11, reqsize := 11
    reqLastmod := 99, reqEtag := "abc", old_entry := none, old_sc := none
    old_lastmod := -1, old_etag := "", old_reqofs := 0, old_reqsize := 0 }

/-- A 200-status hit carrying a matching `If-None-Match` and a stale
`If-Modified-Since`, used to instantiate the conditional theorem. -/
def condW : CondState :=
  { storedStatus := 200, hasIfMatch := false, ifMatchEtagMatches := false
    hasIfNoneMatch := true, ifNoneMatchEtagMatches := true
    imsFlag := true, ims := 1111, imslen := 5, hasImsHeader := true
    modifiedSince := false, methodGetOrHead := true }

/-- A stale-prohibited collapse candidate, used to instantiate the
classification theorem. -/
def lookupW : LookupState :=
  { noCache := false, internalFlag := false, noCacheHack := false
    entryFound := true, offline := false, redirectStatus := false
    validToSend := true, special := false
    hittingRequiresCollapsing := true, startCollapsingOk := false }

/-- A plain GET miss context with no special sub-path, used inside the
concrete IMS states below. -/
def missW : MissState :=
  { leftoverSpecial := false, methodPurge := false, methodOther := false
    onlyIfCached := false, loopDetected := false, redirectStatus := false }

/-- A non-slave context receiving a clean 304 from the origin after the
client itself sent a satisfied If-Modified-Since. -/
def imsW : IMSState :=
  { deleting := false, hasStoreEntry := true, resultError := false
    entryAborted := false, collapsedRevalidation := .crInitiator
    mayStartHitting := true, newStatus := 304, clientImsFlag := true
    oldModifiedSinceClientIms := false, newOlderThanOld := false
    failOnValidationError := false, staleIfHit := true, reqsize := 0
    newReqsize := 12, miss := missW }

/-- A purge of a URL with GET and HEAD variants cached and no Vary key. -/
def purgeW : PurgeState :=
  { enablePurge := true, getEntry := some false, headEntryExists := true
    varyKeyWithEq := false, varyGetExists := false
    varyHeadExists := false }

/-- A transfer that finished cleanly while the received body also exceeds
the configured reply-size limit: the too-large check sits below the
transfer-done branch and is never reached. -/
def rsCex : ReplyStatusState :=
  { hasEntry := true, entryAborted := false, entryBadLength := false
    doneCopying := false, chunkedReply := false, flagsComplete := false
    storeOK := true, objectLen := 100, headersSz := 20, outOffset := 80
    outHeadersSz := 20, outSize := 100, baseContentLength := 80
    bodySizeForMethod := 80, gotEnough := true
    receivedBodyTooLarge := true }

/-- A still-streaming state with the body inside the limits. -/
def rsW : ReplyStatusState :=
  { hasEntry := true, entryAborted := false, entryBadLength := false
    doneCopying := false, chunkedReply := false, flagsComplete := false
    storeOK := true, objectLen := 100, headersSz := 20, outOffset := 10
    outHeadersSz := 20, outSize := 30, baseContentLength := 80
    bodySizeForMethod := 80, gotEnough := false
    receivedBodyTooLarge := false }

/-- A mid-stream state whose body already exceeds the configured limit. -/
def rsW2 : ReplyStatusState :=
  { hasEntry := true, entryAborted := false, entryBadLength := false
    doneCopying := false, chunkedReply := false, flagsComplete := false
    storeOK := true, objectLen := 100, headersSz := 20, outOffset := 10
    outHeadersSz := 20, outSize := 30, baseContentLength := 80
    bodySizeForMethod := 80, gotEnough := false
    receivedBodyTooLarge := true }

/-- A collapsed-revalidation slave whose revalidation entry became
non-shareable; the fallback miss path starts an origin fetch while the
role field still reads `crSlave`. -/
def imsSlaveCex : IMSState :=
  { deleting := false, hasStoreEntry := true, resultError := false
    entryAborted := false, collapsedRevalidation := .crSlave
    mayStartHitting := false, newStatus := 200, clientImsFlag := false
    oldModifiedSinceClientIms := false, newOlderThanOld := false
    failOnValidationError := false, staleIfHit := false, reqsize := 0
    newReqsize := 0, miss := missW }

/-- A stale entry with an in-flight revalidation by another context that
this context may join as a slave. -/
def expiredW : ExpiredState :=
  { onlyIfCached := false, collapsedForwardingCfg := true
    smpAware := false, varyHeadersEmpty := true, revalEntryExists := true
    revalEntryRequiresCollapsing := true, startCollapsingOk := true
    mayInitiateCollapsing := false, allowCollapsing := false }

/-- A deleted context whose reply-access check completes with an allow
answer. -/
def accessCex : AccessState :=
  { deleting := true, allowed := true, headersSent := false
    reqofs := 100, replyHdrSz := 40, methodHead := false
    flagsComplete := false, doneCopying := false }

/-- A deleted context as seen by each short-circuiting callback. -/
def sendW : SendState :=
  { deleting := true, hasConn := true, connOpen := true
    pinnedZeroReply := false, reqofs := 5, reqsize := 5
    resultLength := 9, resultError := false, hasEntry := true
    entryAborted := false, headersSent := false
    storelogiccomplete := false, flagsComplete := false }

/-- A deleted context delivered a cache hit. -/
def hitW : HitState :=
  { deleting := true, hasEntry := true, resultError := false
    mayStartHitting := true, resultLength := 9, reqofs := 0, reqsize := 0
    storeIdMatches := true, vary := .vNone, methodPurge := false
    negativeHit := false, noCacheHack := false, blockedHit := false
    internalFlag := false, refreshStale := false
    lastModifiedKnown := true, noCache := false
    schemeHttpOrHttps := true, conditionalReq := false, cond := condW
    memInMemory := false, offline := false }

/-- A deleted context receiving an IMS reply. -/
def imsDelW : IMSState :=
  { deleting := true, hasStoreEntry := true, resultError := false
    entryAborted := false, collapsedRevalidation := .crInitiator
    mayStartHitting := true, newStatus := 304, clientImsFlag := false
    oldModifiedSinceClientIms := false, newOlderThanOld := false
    failOnValidationError := false, staleIfHit := true, reqsize := 4
    newReqsize := 8, miss := missW }

/-! ### Header-builder invariants (claims C5, C6)

Before the final `Connection` signal, every entry the builder introduces
is either a non-Connection non-Transfer-Encoding entry or the literal
`Connection: Proxy-support`; the hop-by-hop strip has removed every
upstream Connection and Transfer-Encoding entry.  `EntriesOK` threads an
arbitrary predicate with those two closure properties through the
stages. -/

/-- Every entry of the list satisfies `p`. -/
def EntriesOK (p : HeaderEntry → Prop) (l : List HeaderEntry) : Prop :=
  ∀ e ∈ l, p e

/-- A predicate satisfied by every entry whose type is neither
`Connection` nor `Transfer-Encoding`, and by `Connection: Proxy-support`:
the only kinds of entry the header builder introduces between the
hop-by-hop strip and the final `Connection` signal. -/
structure BuilderSafe (p : HeaderEntry → Prop) : Prop where
  hgen : ∀ t v, t ≠ HdrType.CONNECTION → t ≠ HdrType.TRANSFER_ENCODING →
    p (t, v)
  hps : p (HdrType.CONNECTION, "Proxy-support")

/-- A chunkable HTTP/1.1 reply of unknown body size built while the proxy
is shutting down: keep-alive is not viable, yet chunked encoding is still
emitted. -/
def chunkCex : BuildState :=
  { replyHdr := [], isHit := false, collapsedSlave := false
    peerLoginPass := false, contentLengthIrrelevant := false
    entrySpecial := false, actAsOrigin := false, hasConn := true
    hasEntry := true, entryTimestamp := 10, entryExpires := -1
    squidCurtime := 20, loggingDenied := false
    connectionAuthDisabled := false, accelerated := false
    intercepted := false, hostname := "proxy", hitOrFwdTag := none
    firstLookupDetail := none, multipartRange := false
    replyProtoHTTP := true, reqHttpVer11 := true, replyStatusCode := 200
    errorPconns := true, clientPconns := true, mustKeepalive0 := false
    proxyKeepalive0 := true, shuttingDown := true, connectionAuth := false
    replyKeepAlive := true, bodySizeUnknown := true, fdUsageHigh := false
    sslBumped := false, replyPersistent := true, pinned := false
    listenConnOpen := true, reqHasSurrogateCapability := false
    viaValue := "1.1 proxy" }

/-! # Theorems -/

/-- C10: for every reply context with no saved shadow (`old_sc = nullptr`),
`saveState` followed immediately by `restoreState` restores the attached
store entry, the store-client subscription, `reqofs`, `reqsize`, and the
request's last-modified time and ETag to their values from before
`saveState`, and leaves every shadow field in its cleared initial state. -/
theorem saveState_restoreState_roundtrip (c : CtxState)
    (h : c.old_sc = none) :
    (restoreState (saveState c)).entry = c.entry ∧
    (restoreState (saveState c)).sc = c.sc ∧
    (restoreState (saveState c)).reqofs = c.reqofs ∧
    (restoreState (saveState c)).reqsize = c.reqsize ∧
    (restoreState (saveState c)).reqLastmod = c.reqLastmod ∧
    (restoreState (saveState c)).reqEtag = c.reqEtag ∧
    (restoreState (saveState c)).old_entry = none ∧
    (restoreState (saveState c)).old_sc = none ∧
    (restoreState (saveState c)).old_lastmod = -1 ∧
    (restoreState (saveState c)).old_etag = "" ∧
    (restoreState (saveState c)).old_reqofs = 0 ∧
    (restoreState (saveState c)).old_reqsize = 0 := by
  simp [restoreState, saveState, removeClientStoreReference]

/-- Witness for C10 at a concrete context. -/
theorem saveState_restoreState_roundtrip_witness :
    (restoreState (saveState ctxW)).entry = ctxW.entry ∧
    (restoreState (saveState ctxW)).sc = ctxW.sc ∧
    (restoreState (saveState ctxW)).reqofs = ctxW.reqofs ∧
    (restoreState (saveState ctxW)).reqsize = ctxW.reqsize ∧
    (restoreState (saveState ctxW)).reqLastmod = ctxW.reqLastmod ∧
    (restoreState (saveState ctxW)).reqEtag = ctxW.reqEtag ∧
    (restoreState (saveState ctxW)).old_entry = none ∧
    (restoreState (saveState ctxW)).old_sc = none ∧
    (restoreState (saveState ctxW)).old_lastmod = -1 ∧
    (restoreState (saveState ctxW)).old_etag = "" ∧
    (restoreState (saveState ctxW)).old_reqofs = 0 ∧
    (restoreState (saveState ctxW)).old_reqsize = 0 :=
  saveState_restoreState_roundtrip ctxW rfl

/-- C2: conditional-request evaluation against a located hit.  A stored
status ≠ 200 falls through to the miss path; otherwise a present
`If-Match` with no matching stored ETag yields 412; otherwise a present
`If-None-Match` silently drops If-Modified-Since (flag, timestamps, and
header) and yields 304 for GET/HEAD (412 for other methods) exactly when a
stored ETag matches, an unconditional hit otherwise; otherwise a present
`If-Modified-Since` yields an unconditional hit exactly when the entry is
modified since that time, and 304 otherwise. -/
theorem processConditional_spec (s : CondState) :
    (s.storedStatus ≠ 200 →
      (processConditional s).action = .fallThroughMiss ∧
      (processConditional s).handled = true) ∧
    (s.storedStatus = 200 → s.hasIfMatch = true →
      s.ifMatchEtagMatches = false →
      (processConditional s).action = .precondFailed ∧
      (processConditional s).handled = true) ∧
    (s.storedStatus = 200 → (s.hasIfMatch = true →
      s.ifMatchEtagMatches = true) → s.hasIfNoneMatch = true →
      ((processConditional s).imsFlagAfter = false ∧
       (processConditional s).imsAfter = -1 ∧
       (processConditional s).imslenAfter = 0 ∧
       (processConditional s).hasImsHeaderAfter = false) ∧
      (s.ifNoneMatchEtagMatches = true →
        (processConditional s).action =
          (if s.methodGetOrHead then .notModified else .precondFailed) ∧
        (processConditional s).handled = true) ∧
      (s.ifNoneMatchEtagMatches = false →
        (processConditional s).action = .unconditionalHit ∧
        (processConditional s).handled = false)) ∧
    (s.storedStatus = 200 → (s.hasIfMatch = true →
      s.ifMatchEtagMatches = true) → s.hasIfNoneMatch = false →
      s.imsFlag = true →
      ((processConditional s).action = .unconditionalHit ∧
          (processConditional s).handled = false ↔
        s.modifiedSince = true) ∧
      (s.modifiedSince = false →
        (processConditional s).action = .notModified ∧
        (processConditional s).handled = true)) := by
  unfold processConditional
  refine ⟨fun h1 => ?_, fun h1 h2 h3 => ?_, fun h1 h2 h3 => ?_,
    fun h1 h2 h3 h4 => ?_⟩ <;>
    split_ifs <;> simp_all

/-- Witness for C2 at a concrete conditional request: the IMS fields are
dropped and a 304 is chosen. -/
theorem processConditional_spec_witness :
    ((processConditional condW).imsFlagAfter = false ∧
     (processConditional condW).imsAfter = -1 ∧
     (processConditional condW).imslenAfter = 0 ∧
     (processConditional condW).hasImsHeaderAfter = false) ∧
    (processConditional condW).action =
      (if condW.methodGetOrHead then .notModified else .precondFailed) ∧
    (processConditional condW).handled = true :=
  ⟨((processConditional_spec condW).2.2.1 rfl (by decide) rfl).1,
   ((processConditional_spec condW).2.2.1 rfl (by decide) rfl).2.1 rfl⟩

/-- C3: lookup and classification applies the rules in the source's
order: an external `no-cache` request skips the store lookup and records
the `"no-cache"` detail, classified MISS; otherwise the store is queried
and the entry is classified by the ordered rules no-entry MISS, offline
HIT, redirect REDIRECT (forgotten), invalid-to-send MISS (forgotten),
SPECIAL HIT, internal no-cache CLIENT_REFRESH_MISS (forgotten),
collapse-prohibited MISS (forgotten), default HIT. -/
theorem identifyStoreObject_spec (s : LookupState) :
    (s.noCache = true → s.internalFlag = false →
      (identifyStoreObject s).storeQueried = false ∧
      (identifyStoreObject s).detail = .noCacheSkip ∧
      (identifyStoreObject s).tag = .TCP_MISS ∧
      (identifyStoreObject s).forgot = false) ∧
    (s.noCache = false ∨ s.internalFlag = true →
      (identifyStoreObject s).storeQueried = true ∧
      (identifyStoreObject s).detail = .storeLookup s.entryFound ∧
      (s.entryFound = false →
        (identifyStoreObject s).tag = .TCP_MISS ∧
        (identifyStoreObject s).forgot = false) ∧
      (s.entryFound = true →
        (s.offline = true →
          (identifyStoreObject s).tag = .TCP_HIT ∧
          (identifyStoreObject s).forgot = false) ∧
        (s.offline = false →
          (s.redirectStatus = true →
            (identifyStoreObject s).tag = .TCP_REDIRECT ∧
            (identifyStoreObject s).forgot = true) ∧
          (s.redirectStatus = false →
            (s.validToSend = false →
              (identifyStoreObject s).tag = .TCP_MISS ∧
              (identifyStoreObject s).forgot = true) ∧
            (s.validToSend = true →
              (s.special = true →
                (identifyStoreObject s).tag = .TCP_HIT ∧
                (identifyStoreObject s).forgot = false) ∧
              (s.special = false →
                (s.noCache = true →
                  (identifyStoreObject s).tag = .TCP_CLIENT_REFRESH_MISS ∧
                  (identifyStoreObject s).forgot = true) ∧
                (s.noCache = false →
                  (s.hittingRequiresCollapsing = true →
                      s.startCollapsingOk = false →
                    (identifyStoreObject s).tag = .TCP_MISS ∧
                    (identifyStoreObject s).forgot = true) ∧
                  ((s.hittingRequiresCollapsing = false ∨
                      s.startCollapsingOk = true) →
                    (identifyStoreObject s).tag = .TCP_HIT ∧
                    (identifyStoreObject s).forgot = false)))))))) := by
  have hq : ∀ (q : Bool) d e, (identifyFoundObject s q d e).storeQueried = q ∧
      (identifyFoundObject s q d e).detail = d := by
    intro q d e
    unfold identifyFoundObject
    dsimp only
    split_ifs <;> exact ⟨rfl, rfl⟩
  constructor
  · intro h1 h2
    rw [identifyStoreObject, if_neg (by simp [h1, h2])]
    unfold identifyFoundObject
    simp
  · intro h12
    have hcond : (¬s.noCache ∨ s.internalFlag) := by
      rcases h12 with h | h
      · exact Or.inl (by simp [h])
      · exact Or.inr (by simp [h])
    rw [identifyStoreObject, if_pos hcond]
    refine ⟨(hq _ _ _).1, (hq _ _ _).2, fun he => ?_, fun he => ?_⟩
    · unfold identifyFoundObject; simp [he]
    refine ⟨fun ho => ?_, fun ho => ?_⟩
    · unfold identifyFoundObject; simp [he, ho]
    refine ⟨fun hr => ?_, fun hr => ?_⟩
    · unfold identifyFoundObject; simp [he, ho, hr]
    refine ⟨fun hv => ?_, fun hv => ?_⟩
    · unfold identifyFoundObject; simp [he, ho, hr, hv]
    refine ⟨fun hsp => ?_, fun hsp => ?_⟩
    · unfold identifyFoundObject; simp [he, ho, hr, hv, hsp]
    refine ⟨fun hnc => ?_, fun hnc => ?_⟩
    · unfold identifyFoundObject; simp [he, ho, hr, hv, hsp, hnc]
    refine ⟨fun hh hsc => ?_, fun hor => ?_⟩
    · unfold identifyFoundObject; simp [he, ho, hr, hv, hsp, hnc, hh, hsc]
    · unfold identifyFoundObject
      dsimp only
      rw [if_neg (by simp [he]), if_neg (by simp [ho]),
        if_neg (by simp [hr]), if_neg (by simp [hv]),
        if_neg (by simp [hsp]), if_neg (by simp [hnc]),
        if_neg (by
          rcases hor with hh | hsc
          · simp [hh]
          · simp [hsc])]
      exact ⟨rfl, rfl⟩

/-- Witness for C3 at a concrete request: a collapse-prohibited entry is
forgotten and classified MISS. -/
theorem identifyStoreObject_spec_witness :
    (identifyStoreObject lookupW).storeQueried = true ∧
    (identifyStoreObject lookupW).tag = .TCP_MISS ∧
    (identifyStoreObject lookupW).forgot = true :=
  have h := (identifyStoreObject_spec lookupW).2 (Or.inl rfl)
  have hx := ((((((h.2.2.2 rfl).2 rfl).2 rfl).2 rfl).2 rfl).2 rfl).1 rfl rfl
  ⟨h.1, hx.1, hx.2⟩

/-- C1: for every revalidation response processed by `handleIMSReply`
(context not deleting, store entry attached, store copy not in error, and
neither the slave-fallback nor the aborted-entry case): on a 304 the store
merges the freshened metadata into the old entry, the stale-if-hit flag is
cleared, and the forwarded 304 goes to the client exactly when the client
itself sent If-Modified-Since and the old entry is not modified since that
time, the old entry otherwise; on a status above none and below 500 the
old entry is sent with the ignored marker when the new reply's Date is
older than the stored one, and otherwise the new response is forwarded
tagged REFRESH_MODIFIED; on 500-or-above (or an equivalent error code)
the error is forwarded exactly when fail-on-validation-error is set, and
the old entry is sent tagged REFRESH_FAIL_OLD otherwise. -/
theorem handleIMSReply_spec (s : IMSState)
    (hdel : s.deleting = false) (hent : s.hasStoreEntry = true)
    (herr : s.resultError = false)
    (hslave : ¬(s.collapsedRevalidation = .crSlave ∧
      s.mayStartHitting = false))
    (haborted : s.entryAborted = false) :
    (s.newStatus = 304 →
      (handleIMSReply s).updateOnNotModifiedCalled = true ∧
      (handleIMSReply s).staleIfHitAfter = false ∧
      ((handleIMSReply s).action = .sendUpstream ↔
        (s.clientImsFlag = true ∧ s.oldModifiedSinceClientIms = false)) ∧
      (¬(s.clientImsFlag = true ∧ s.oldModifiedSinceClientIms = false) →
        (handleIMSReply s).action = .sendOldEntry)) ∧
    (s.newStatus ≠ 304 → 0 < s.newStatus → s.newStatus < 500 →
      (s.newOlderThanOld = true →
        (handleIMSReply s).action = .sendOldEntry ∧
        (handleIMSReply s).ignoredMarkerSet = true) ∧
      (s.newOlderThanOld = false →
        (handleIMSReply s).action = .sendUpstream ∧
        (handleIMSReply s).tag = some .TCP_REFRESH_MODIFIED)) ∧
    (¬(0 < s.newStatus ∧ s.newStatus < 500) →
      ((handleIMSReply s).action = .sendUpstream ↔
        s.failOnValidationError = true) ∧
      (s.failOnValidationError = true →
        (handleIMSReply s).tag = some .TCP_REFRESH_FAIL_ERR) ∧
      (s.failOnValidationError = false →
        (handleIMSReply s).action = .sendOldEntry ∧
        (handleIMSReply s).tag = some .TCP_REFRESH_FAIL_OLD)) := by
  unfold handleIMSReply
  rw [if_neg (by simp [hdel]), if_neg (by simp [hent]),
    if_neg (by simp [herr]), if_neg (by simpa using hslave),
    if_neg (by simp [haborted])]
  refine ⟨fun h304 => ?_, fun hn304 h0 h500 => ?_, fun hrange => ?_⟩
  · rw [if_pos h304]
    constructor
    · split_ifs <;> rfl
    constructor
    · split_ifs <;> rfl
    constructor
    · constructor
      · intro ha
        by_contra hc
        rw [if_neg (by simpa using hc)] at ha
        exact absurd ha (by simp)
      · intro hc
        rw [if_pos (by simpa using hc)]
    · intro hc
      rw [if_neg (by simpa using hc)]
  · rw [if_neg (by simp [hn304]), if_pos (by simp [h0, h500])]
    exact ⟨fun ho => by rw [if_pos (by simp [ho])]; exact ⟨rfl, rfl⟩,
      fun ho => by rw [if_neg (by simp [ho])]; exact ⟨rfl, rfl⟩⟩
  · have hn304 : ¬s.newStatus = 304 := by
      intro hx
      exact hrange (by simp [hx])
    rw [if_neg (by simpa using hn304), if_neg (by simpa using hrange)]
    refine ⟨⟨fun ha => ?_, fun hf => by rw [if_pos (by simp [hf])]⟩,
      fun hf => by rw [if_pos (by simp [hf])],
      fun hf => by rw [if_neg (by simp [hf])]; exact ⟨rfl, rfl⟩⟩
    by_contra hc
    rw [if_neg (by simp_all)] at ha
    exact absurd ha (by simp)

/-- Witness for C1 at a concrete 304 revalidation: the store is updated,
stale-if-hit cleared, and the 304 is forwarded. -/
theorem handleIMSReply_spec_witness :
    (handleIMSReply imsW).updateOnNotModifiedCalled = true ∧
    (handleIMSReply imsW).staleIfHitAfter = false ∧
    (handleIMSReply imsW).action = .sendUpstream :=
  have h := (handleIMSReply_spec imsW rfl rfl rfl (by decide) rfl).1 rfl
  ⟨h.1, h.2.1, h.2.2.1.mpr ⟨rfl, rfl⟩⟩

/-- C9: for every PURGE request, disabled purging yields 403 with nothing
evicted; a found SPECIAL GET entry yields 403 with the entry abandoned
rather than evicted; otherwise a found GET entry is evicted (purge status
200), the HEAD variant likewise, and with an `=`-bearing Vary key the
base-URI GET/HEAD variants as well; the synthesized reply carries 404 when
nothing was purged and 200 otherwise. -/
theorem purgeRequest_spec (s : PurgeState) :
    (s.enablePurge = false →
      (purgeRequest s).outcome = .accessDenied403 ∧
      (purgeRequest s).evicted = [] ∧
      (purgeRequest s).ipCacheInvalidated = false) ∧
    (s.enablePurge = true →
      (s.getEntry = some true →
        (purgeRequest s).outcome = .specialDenied403 ∧
        (purgeRequest s).evicted = [] ∧
        (purgeRequest s).abandonedSpecial = true) ∧
      (s.getEntry ≠ some true →
        ((s.getEntry = some false →
          PurgeItem.getVariant ∈ (purgeRequest s).evicted) ∧
        (s.headEntryExists = true →
          PurgeItem.headVariant ∈ (purgeRequest s).evicted) ∧
        (s.varyKeyWithEq = true → s.varyGetExists = true →
          PurgeItem.varyGetVariant ∈ (purgeRequest s).evicted) ∧
        (s.varyKeyWithEq = true → s.varyHeadExists = true →
          PurgeItem.varyHeadVariant ∈ (purgeRequest s).evicted) ∧
        ((purgeRequest s).outcome = .purgeReply 404 ↔
          (purgeRequest s).evicted = []) ∧
        ((purgeRequest s).evicted ≠ [] →
          (purgeRequest s).outcome = .purgeReply 200)))) := by
  rcases s with ⟨en, ge, he, vk, vg, vh⟩
  have hb : ge = none ∨ ge = some false ∨ ge = some true := by
    rcases ge with _ | b
    · exact Or.inl rfl
    · cases b
      · exact Or.inr (Or.inl rfl)
      · exact Or.inr (Or.inr rfl)
  rcases hb with rfl | rfl | rfl <;> cases en <;> cases he <;>
    cases vk <;> cases vg <;> cases vh <;> decide

/-- Witness for C9 at a concrete purge: both variants are evicted and the
reply status is 200. -/
theorem purgeRequest_spec_witness :
    PurgeItem.getVariant ∈ (purgeRequest purgeW).evicted ∧
    PurgeItem.headVariant ∈ (purgeRequest purgeW).evicted ∧
    (purgeRequest purgeW).outcome = .purgeReply 200 :=
  have h := ((purgeRequest_spec purgeW).2 rfl).2 (by decide)
  ⟨h.1 rfl, h.2.1 rfl, h.2.2.2.2.2 (by decide)⟩

/-- C4 counterexample: a state whose received body exceeds the configured
limit yet `replyStatus` returns COMPLETE, because the transfer is done
before the too-large check is reached. -/
theorem replyStatus_claim_counterexample :
    rsCex.receivedBodyTooLarge = true ∧ replyStatus rsCex = .COMPLETE := by
  decide

/-- C4 (amended): FAILED when no entry is attached, when the entry is
aborted, or when the received body exceeds the configured limit while the
transfer is not yet done or complete; UNPLANNED_COMPLETE when the transfer
is done (or marked complete) but the entry carries BAD_LENGTH, or when it
is done with a known expected body size the client did not fully receive;
COMPLETE on clean termination; NONE exactly when more data is still
expected (attached live entry, transfer neither done nor complete, body
within limits). -/
theorem replyStatus_spec (s : ReplyStatusState) :
    (s.hasEntry = false → replyStatus s = .FAILED) ∧
    (s.hasEntry = true → s.entryAborted = true →
      replyStatus s = .FAILED) ∧
    (s.hasEntry = true → s.entryAborted = false →
      checkTransferDone s = false → s.flagsComplete = false →
      s.receivedBodyTooLarge = true → replyStatus s = .FAILED) ∧
    (s.hasEntry = true → s.entryAborted = false →
      (checkTransferDone s = true ∨ s.flagsComplete = true) →
      s.entryBadLength = true → replyStatus s = .UNPLANNED_COMPLETE) ∧
    (s.hasEntry = true → s.entryAborted = false →
      s.entryBadLength = false → checkTransferDone s = true →
      0 ≤ s.bodySizeForMethod → s.gotEnough = false →
      replyStatus s = .UNPLANNED_COMPLETE) ∧
    (s.hasEntry = true → s.entryAborted = false →
      s.entryBadLength = false → checkTransferDone s = true →
      (s.bodySizeForMethod < 0 ∨ s.gotEnough = true) →
      replyStatus s = .COMPLETE) ∧
    (replyStatus s = .NONE ↔
      (s.hasEntry = true ∧ s.entryAborted = false ∧
       checkTransferDone s = false ∧ s.flagsComplete = false ∧
       s.receivedBodyTooLarge = false)) := by
  unfold replyStatus
  refine ⟨fun h1 => by simp [h1], fun h1 h2 => by simp [h1, h2],
    fun h1 h2 h3 h4 h5 => by simp [h1, h2, h3, h4, h5],
    fun h1 h2 h3 h4 => ?_, fun h1 h2 h3 h4 h5 h6 => ?_,
    fun h1 h2 h3 h4 h5 => ?_, ?_⟩
  · rw [if_neg (by simp [h1]), if_neg (by simp [h2]),
      if_pos (by simpa using h3), if_pos h4]
  · rw [if_neg (by simp [h1]), if_neg (by simp [h2]),
      if_pos (by simp [h4]), if_neg (by simp [h3]),
      if_neg (by simp [h4]), if_pos (by simp [h5, h6])]
  · rw [if_neg (by simp [h1]), if_neg (by simp [h2]),
      if_pos (by simp [h4]), if_neg (by simp [h3]),
      if_neg (by simp [h4]),
      if_neg (by rcases h5 with h5 | h5 <;> simp [h5] <;> omega)]
  · constructor
    · intro hn
      by_cases h1 : s.hasEntry = true
      · by_cases h2 : s.entryAborted = false
        · by_cases h3 : checkTransferDone s = true
          · rw [if_neg (by simp [h1]), if_neg (by simp [h2]),
              if_pos (by simp [h3])] at hn
            split_ifs at hn <;> simp_all
          · by_cases h4 : s.flagsComplete = true
            · rw [if_neg (by simp [h1]), if_neg (by simp [h2]),
                if_pos (by simp [h4])] at hn
              split_ifs at hn <;> simp_all
            · refine ⟨h1, h2, by simpa using h3, by simpa using h4, ?_⟩
              rw [if_neg (by simp [h1]), if_neg (by simp [h2]),
                if_neg (by
                  simp only [not_or]
                  exact ⟨by simpa using h3, by simpa using h4⟩)] at hn
              by_contra hc
              rw [if_pos (by simpa using hc)] at hn
              exact absurd hn (by simp)
        · rw [if_neg (by simp [h1]),
            if_pos (by simpa using h2)] at hn
          exact absurd hn (by simp)
      · rw [if_pos (by simpa using h1)] at hn
        exact absurd hn (by simp)
    · rintro ⟨h1, h2, h3, h4, h5⟩
      rw [if_neg (by simp [h1]), if_neg (by simp [h2]),
        if_neg (by simp [h3, h4]), if_neg (by simp [h5])]

/-- Witness for C4 (amended) at concrete states: a mid-stream over-limit
body fails, and an in-progress in-limit stream reports NONE. -/
theorem replyStatus_spec_witness :
    replyStatus rsW2 = .FAILED ∧ replyStatus rsW = .NONE :=
  ⟨(replyStatus_spec rsW2).2.2.1 rfl rfl (by decide) rfl rfl,
   (replyStatus_spec rsW).2.2.2.2.2.2.mpr
     ⟨rfl, rfl, by decide, rfl, rfl⟩⟩

/-- C7 counterexample: a context whose `collapsedRevalidation` role is
`crSlave` initiates an origin fetch (`FwdState::Start` via `processMiss`)
when the revalidation entry became non-shareable. -/
theorem slave_neverForwards_counterexample :
    imsSlaveCex.collapsedRevalidation = .crSlave ∧
    (handleIMSReply imsSlaveCex).fwdStarted = true := by
  decide

/-- C7 (amended): a slave context initiates no origin fetch while it keeps
consuming the initiator's entry: `processExpired` never starts forwarding
when it assumes the slave role, and `handleIMSReply` under the slave role
starts forwarding only in the fallback after the revalidation entry became
non-shareable (`mayStartHitting` false), where the old context is restored
and the request is reprocessed as a full miss. -/
theorem slave_forwards_only_on_fallback (e : ExpiredState) (s : IMSState)
    (he : (processExpired e).role = .crSlave)
    (hs : s.collapsedRevalidation = .crSlave) :
    (processExpired e).fwdStarted = false ∧
    ((handleIMSReply s).fwdStarted = true → s.mayStartHitting = false) := by
  constructor
  · unfold processExpired at he ⊢
    dsimp only at he ⊢
    split_ifs at he ⊢ <;> simp_all
  · intro hf
    unfold handleIMSReply at hf
    split_ifs at hf <;> simp_all

/-- Witness for C7 (amended) at concrete states: the joining slave starts
no fetch, and the slave fallback implies a non-shareable entry. -/
theorem slave_forwards_only_on_fallback_witness :
    (processExpired expiredW).fwdStarted = false ∧
    ((handleIMSReply imsSlaveCex).fwdStarted = true →
      imsSlaveCex.mayStartHitting = false) :=
  slave_forwards_only_on_fallback expiredW imsSlaveCex (by decide) rfl

/-- C8 counterexample: the reply-access-check completion performs no check
of the `deleting` flag: a deleted context still marks its headers sent and
pushes the reply onward. -/
theorem deleting_shortCircuits_counterexample :
    accessCex.deleting = true ∧
    (processReplyAccessResult accessCex).action = .sendHeaders ∧
    (processReplyAccessResult accessCex).headersSentAfter = true := by
  decide

/-- C8 (amended): once `deleting` is set, the store-copy delivery
(`sendMoreData`), the IMS-reply delivery (`handleIMSReply`), and the
cache-hit delivery (`cacheHit`) return immediately with no further
processing or state change; the reply-access-check completion performs no
`deleting` check. -/
theorem deleting_shortCircuits_callbacks (a : SendState) (b : IMSState)
    (c : HitState) (ha : a.deleting = true) (hb : b.deleting = true)
    (hc : c.deleting = true) :
    sendMoreData a =
      { action := .ignoredDeleting, reqofsAfter := a.reqofs,
        reqsizeAfter := a.reqsize,
        storelogiccompleteAfter := a.storelogiccomplete,
        flagsCompleteAfter := a.flagsComplete } ∧
    handleIMSReply b =
      { action := .ignoredDeleting, tag := none,
        updateOnNotModifiedCalled := false,
        staleIfHitAfter := b.staleIfHit, ignoredMarkerSet := false,
        reqsizeAfter := b.reqsize, fwdStarted := false } ∧
    cacheHit c =
      { action := .ignoredDeleting, reqsizeAfter := c.reqsize } := by
  refine ⟨?_, ?_, ?_⟩
  · unfold sendMoreData; rw [if_pos (by simp [ha])]
  · unfold handleIMSReply; rw [if_pos (by simp [hb])]
  · unfold cacheHit; rw [if_pos (by simp [hc])]

/-- Witness for C8 (amended) at concrete deleted contexts. -/
theorem deleting_shortCircuits_callbacks_witness :
    sendMoreData sendW =
      { action := .ignoredDeleting, reqofsAfter := sendW.reqofs,
        reqsizeAfter := sendW.reqsize,
        storelogiccompleteAfter := sendW.storelogiccomplete,
        flagsCompleteAfter := sendW.flagsComplete } ∧
    handleIMSReply imsDelW =
      { action := .ignoredDeleting, tag := none,
        updateOnNotModifiedCalled := false,
        staleIfHitAfter := imsDelW.staleIfHit, ignoredMarkerSet := false,
        reqsizeAfter := imsDelW.reqsize, fwdStarted := false } ∧
    cacheHit hitW =
      { action := .ignoredDeleting, reqsizeAfter := hitW.reqsize } :=
  deleting_shortCircuits_callbacks sendW imsDelW hitW rfl rfl rfl

theorem entriesOK_append {p : HeaderEntry → Prop}
    {l₁ l₂ : List HeaderEntry} (h₁ : EntriesOK p l₁)
    (h₂ : EntriesOK p l₂) : EntriesOK p (l₁ ++ l₂) := by
  intro e he
  rcases List.mem_append.mp he with h | h
  · exact h₁ e h
  · exact h₂ e h

theorem entriesOK_delById {p : HeaderEntry → Prop} {t : HdrType}
    {l : List HeaderEntry} (h : EntriesOK p l) :
    EntriesOK p (delById t l) := by
  intro e he
  unfold delById at he
  exact h e (List.mem_filter.mp he).1

theorem entriesOK_singleton {p : HeaderEntry → Prop} {t : HdrType}
    {v : String} (h : p (t, v)) : EntriesOK p [(t, v)] := by
  intro e he
  rw [List.mem_singleton] at he
  rw [he]
  exact h

theorem entriesOK_removeHopByHop {p : HeaderEntry → Prop}
    (hb : BuilderSafe p) (l : List HeaderEntry) :
    EntriesOK p (removeHopByHopEntries l) := by
  intro e he
  unfold removeHopByHopEntries at he
  have hh : isHopByHop e.1 = false := by
    simpa using (List.mem_filter.mp he).2
  have h1 : e.1 ≠ HdrType.CONNECTION := by
    intro hx
    rw [hx] at hh
    simp [isHopByHop] at hh
  have h2 : e.1 ≠ HdrType.TRANSFER_ENCODING := by
    intro hx
    rw [hx] at hh
    simp [isHopByHop] at hh
  have := hb.hgen e.1 e.2 h1 h2
  simpa using this

theorem entriesOK_xOriginDate {p : HeaderEntry → Prop}
    (hb : BuilderSafe p) {l : List HeaderEntry} (h : EntriesOK p l) :
    EntriesOK p (xOriginDate l) := by
  unfold xOriginDate
  cases findHdr .DATE l with
  | some v =>
    exact entriesOK_append h
      (entriesOK_singleton (hb.hgen _ _ (by decide) (by decide)))
  | none => exact h

theorem entriesOK_xOriginExpires {p : HeaderEntry → Prop}
    (hb : BuilderSafe p) (s : BuildState) {l : List HeaderEntry}
    (h : EntriesOK p l) : EntriesOK p (xOriginExpires s l) := by
  unfold xOriginExpires
  cases findHdr .EXPIRES l with
  | some v =>
    dsimp only
    split_ifs
    · exact entriesOK_append (entriesOK_delById (entriesOK_append h
        (entriesOK_singleton (hb.hgen _ _ (by decide) (by decide)))))
        (entriesOK_singleton (hb.hgen _ _ (by decide) (by decide)))
    · exact h
  | none => exact h

theorem entriesOK_originDateSwap {p : HeaderEntry → Prop}
    (hb : BuilderSafe p) (s : BuildState) {l : List HeaderEntry}
    (h : EntriesOK p l) : EntriesOK p (originDateSwap s l) := by
  unfold originDateSwap
  dsimp only
  have h3 : EntriesOK p (xOriginExpires s (delById .DATE (xOriginDate l) ++
      [(.DATE, toString s.squidCurtime)])) :=
    entriesOK_xOriginExpires hb s
      (entriesOK_append (entriesOK_delById (entriesOK_xOriginDate hb h))
        (entriesOK_singleton (hb.hgen _ _ (by decide) (by decide))))
  split_ifs
  · exact entriesOK_append h3
      (entriesOK_singleton (hb.hgen _ _ (by decide) (by decide)))
  · exact h3

theorem entriesOK_ageAdjust {p : HeaderEntry → Prop} (hb : BuilderSafe p)
    (s : BuildState) {l : List HeaderEntry} (h : EntriesOK p l) :
    EntriesOK p (ageAdjust s l) := by
  unfold ageAdjust
  dsimp only
  have hA : EntriesOK p (delById .AGE l) := entriesOK_delById h
  split_ifs
  · exact entriesOK_append (entriesOK_delById hA)
      (entriesOK_singleton (hb.hgen _ _ (by decide) (by decide)))
  · exact entriesOK_originDateSwap hb s hA
  · exact entriesOK_append hA
      (entriesOK_singleton (hb.hgen _ _ (by decide) (by decide)))
  · exact hA

theorem entriesOK_ensureDate {p : HeaderEntry → Prop} (hb : BuilderSafe p)
    (s : BuildState) {l : List HeaderEntry} (h : EntriesOK p l) :
    EntriesOK p (ensureDate s l) := by
  unfold ensureDate
  split_ifs <;>
    first
    | exact h
    | exact entriesOK_append h
        (entriesOK_singleton (hb.hgen _ _ (by decide) (by decide)))

theorem filterConnAuthList_subset (d : Bool) (l : List HeaderEntry) :
    ∀ e ∈ (filterConnAuthList d l).1, e ∈ l := by
  induction l with
  | nil =>
    intro e he
    simpa [filterConnAuthList] using he
  | cons a rest ih =>
    intro e he
    unfold filterConnAuthList at he
    split_ifs at he
    · exact List.mem_cons_of_mem a (ih e he)
    · exact he
    · dsimp only at he
      rcases List.mem_cons.mp he with rfl | hm
      · exact List.mem_cons_self _ _
      · exact List.mem_cons_of_mem a (ih e hm)

theorem entriesOK_wwwAuthFilter {p : HeaderEntry → Prop}
    (hb : BuilderSafe p) (s : BuildState) {l : List HeaderEntry}
    (h : EntriesOK p l) : EntriesOK p (wwwAuthFilter s l).1 := by
  have hsub : EntriesOK p (filterConnAuthList s.connectionAuthDisabled l).1 :=
    fun e he => h e (filterConnAuthList_subset _ _ e he)
  unfold wwwAuthFilter
  by_cases hg : (¬s.loggingDenied ∧ hasHdr .WWW_AUTHENTICATE l = true :
      Prop)
  · rw [if_pos hg]
    dsimp only
    by_cases hm : (filterConnAuthList s.connectionAuthDisabled l).2 = true
    · rw [if_pos hm]
      by_cases hai : (¬s.accelerated ∧ ¬s.intercepted : Prop)
      · rw [if_pos hai]
        dsimp only
        apply entriesOK_append hsub
        intro e he
        rcases List.mem_cons.mp he with rfl | he2
        · exact hb.hgen _ _ (by decide) (by decide)
        · rw [List.mem_singleton] at he2
          rw [he2]
          exact hb.hps
      · rw [if_neg hai]
        exact hsub
    · rw [if_neg hm]
      exact hsub
  · rw [if_neg hg]
    exact h

theorem entriesOK_strippedHdr {p : HeaderEntry → Prop}
    (hb : BuilderSafe p) (s : BuildState) :
    EntriesOK p (strippedHdr s) := by
  unfold strippedHdr
  dsimp only
  apply entriesOK_ensureDate hb
  split_ifs <;>
    first
    | exact entriesOK_ageAdjust hb s
        (entriesOK_delById (entriesOK_removeHopByHop hb _))
    | exact entriesOK_ageAdjust hb s (entriesOK_removeHopByHop hb _)
    | exact entriesOK_delById (entriesOK_removeHopByHop hb _)
    | exact entriesOK_removeHopByHop hb _

theorem entriesOK_taggedHdr {p : HeaderEntry → Prop} (hb : BuilderSafe p)
    (s : BuildState) : EntriesOK p (taggedHdr s) := by
  unfold taggedHdr
  exact entriesOK_append (entriesOK_wwwAuthFilter hb s
      (entriesOK_strippedHdr hb s))
    (entriesOK_singleton (hb.hgen _ _ (by decide) (by decide)))

/-- Membership in the finished header reduces to membership in the header
before the Surrogate-Control drop, for entries of any other type. -/
theorem mem_finalHdr_iff {s : BuildState} {e : HeaderEntry}
    (hne : e.1 ≠ HdrType.SURROGATE_CONTROL) :
    e ∈ finalHdr s ↔ e ∈ viaHdr s ++
      [(HdrType.CONNECTION,
        if buildKeepalive s then "keep-alive" else "close")] := by
  unfold finalHdr
  dsimp only
  generalize (if buildKeepalive s then "keep-alive" else "close") = v
  split_ifs
  · unfold delById
    rw [List.mem_filter]
    constructor
    · exact And.left
    · intro hm
      exact ⟨hm, by simpa using hne⟩
  · exact Iff.rfl

/-- C6: on every finished reply header exactly one of the values
`Connection: keep-alive` and `Connection: close` appears — never both and
never neither — and the emitted value reflects the keep-alive decision
computed for the request. -/
theorem connection_signal_spec (s : BuildState) :
    (((HdrType.CONNECTION, "keep-alive") ∈ (buildReplyHeader s).hdr) ↔
      (buildReplyHeader s).proxyKeepalive = true) ∧
    (((HdrType.CONNECTION, "close") ∈ (buildReplyHeader s).hdr) ↔
      (buildReplyHeader s).proxyKeepalive = false) := by
  have hb : BuilderSafe (fun e => e.1 = HdrType.CONNECTION →
      e.2 ≠ "keep-alive" ∧ e.2 ≠ "close") := by
    refine ⟨fun t v ht1 _ hx => absurd hx ht1, fun _ => ⟨?_, ?_⟩⟩ <;>
      decide
  have hvia : EntriesOK (fun e => e.1 = HdrType.CONNECTION →
      e.2 ≠ "keep-alive" ∧ e.2 ≠ "close") (viaHdr s) := by
    unfold viaHdr
    apply entriesOK_append
    · split_ifs
      · exact entriesOK_append (entriesOK_taggedHdr hb s)
          (entriesOK_singleton (fun hx => absurd hx (by decide)))
      · exact entriesOK_taggedHdr hb s
    · exact entriesOK_singleton (hb.hgen _ _ (by decide) (by decide))
  have hmem : ∀ val : String, val = "keep-alive" ∨ val = "close" →
      (((HdrType.CONNECTION, val) ∈ finalHdr s) ↔
        val = (if buildKeepalive s then "keep-alive" else "close")) := by
    intro val hval
    rw [mem_finalHdr_iff (by simp)]
    constructor
    · intro hm2
      rcases List.mem_append.mp hm2 with hm3 | hm3
      · exfalso
        have hcc := hvia _ hm3 rfl
        rcases hval with rfl | rfl
        · exact hcc.1 rfl
        · exact hcc.2 rfl
      · rw [List.mem_singleton] at hm3
        exact congrArg Prod.snd hm3
    · intro hveq
      apply List.mem_append_right
      rw [List.mem_singleton, hveq]
  have h1 := hmem "keep-alive" (Or.inl rfl)
  have h2 := hmem "close" (Or.inr rfl)
  constructor
  · show ((HdrType.CONNECTION, "keep-alive") ∈ finalHdr s) ↔
      buildKeepalive s = true
    rw [h1]
    cases hka : buildKeepalive s <;> simp_all <;> decide
  · show ((HdrType.CONNECTION, "close") ∈ finalHdr s) ↔
      buildKeepalive s = false
    rw [h2]
    cases hka : buildKeepalive s <;> simp_all <;> decide

/-- C5 counterexample: with the proxy shutting down, the reply is built
with `Transfer-Encoding: chunked` (and the `chunkedReply` flag set) even
though the keep-alive decision is negative — chunking does not require
keep-alive to remain viable. -/
theorem chunked_claim_counterexample :
    (buildReplyHeader chunkCex).chunkedReply = true ∧
    ((HdrType.TRANSFER_ENCODING, "chunked") ∈
      (buildReplyHeader chunkCex).hdr) ∧
    (buildReplyHeader chunkCex).proxyKeepalive = false := by
  decide

/-- C5 (amended): `Transfer-Encoding: chunked` appears (and the request's
`chunkedReply` flag is set) if and only if the request's HTTP version is
1.1 or higher, the reply is an HTTP response, the reply's body size is
unknown, and the request is not a multipart range request — independent of
the keep-alive decision. -/
theorem chunked_spec (s : BuildState) :
    ((buildReplyHeader s).chunkedReply = true ↔
      (s.reqHttpVer11 = true ∧ s.replyProtoHTTP = true ∧
       s.bodySizeUnknown = true ∧ s.multipartRange = false)) ∧
    (((HdrType.TRANSFER_ENCODING, "chunked") ∈ (buildReplyHeader s).hdr) ↔
      (buildReplyHeader s).chunkedReply = true) := by
  have hbTE : BuilderSafe (fun e => e.1 ≠ HdrType.TRANSFER_ENCODING) :=
    ⟨fun t v _ ht2 => ht2, by decide⟩
  have htag : EntriesOK (fun e => e.1 ≠ HdrType.TRANSFER_ENCODING)
      (taggedHdr s) := entriesOK_taggedHdr hbTE s
  constructor
  · show buildChunked s = true ↔ _
    simp only [buildChunked, maySendChunkedReply, decide_eq_true_eq,
      Bool.not_eq_true]
    tauto
  · show ((HdrType.TRANSFER_ENCODING, "chunked") ∈ finalHdr s) ↔
      buildChunked s = true
    rw [mem_finalHdr_iff (by simp)]
    constructor
    · intro hm2
      rcases List.mem_append.mp hm2 with hm3 | hm3
      · unfold viaHdr at hm3
        rcases List.mem_append.mp hm3 with hm4 | hm4
        · by_cases hc : buildChunked s = true
          · exact hc
          · exfalso
            rw [if_neg (by simpa using hc)] at hm4
            exact htag _ hm4 rfl
        · rw [List.mem_singleton] at hm4
          exact absurd (congrArg Prod.fst hm4) (by simp)
      · rw [List.mem_singleton] at hm3
        exact absurd (congrArg Prod.fst hm3) (by simp)
    · intro hc
      apply List.mem_append_left
      unfold viaHdr
      apply List.mem_append_left
      rw [if_pos hc]
      exact List.mem_append_right _ (List.mem_singleton.mpr rfl)

end ClientSideReply

